import Mathlib

/-!
# ShlubluLib — verification of the CPython-binding ownership layer

Shallow embedding of the reference-counted object-lifetime tracking layer of
ShlubluLib: `ObjectHandler` (src/src/binding/Python_ObjectHandler.cpp), the
`ObjectHandlersCollection` registry, the `Python` facade functions
(namespaced `Python.cpp`) and `MutexLock::unlock` (src/src/async/MutexLock.cpp).

The CPython runtime is out of scope of the repository and is modelled as an
explicit heap of reference-counted objects: every foreign producing call
(attribute access, call, tuple/list creation, unicode conversion) allocates a
fresh object holding one reference, `Py_INCREF`/`Py_DECREF` adjust the count,
and a count reaching zero deallocates the object, releasing the references it
holds on its items (tuple/list slots, released on container deallocation).
-/

namespace Shlublu

/-- Foreign object pointers; `0` is the null pointer. -/
abbrev Ptr := Nat

/-- Kind tag of a foreign object: enough structure to decide the
`PyList_Check` / `PyUnicode_Check` tests made by the facade. -/
inductive PyKind where
  | strK (payload : String)
  | listK
  | tupleK
  | moduleK
  | callableK
  | otherK
deriving DecidableEq, Repr

/-- A foreign object: its reference count (CPython's `ob_refcnt`, a signed
machine integer) and the pointers it holds (tuple/list slots, `0` = empty slot). -/
structure PyObj where
  refcnt : Int
  items : List Ptr
  kind : PyKind
deriving DecidableEq, Repr

/-- The foreign heap: an association list of live objects and the next fresh
address handed out by allocation. -/
structure Heap where
  mem : List (Ptr × PyObj)
  next : Ptr
deriving DecidableEq, Repr

namespace Heap

def find? (h : Heap) (p : Ptr) : Option PyObj :=
  (h.mem.find? (fun e => e.1 = p)).map (fun e => e.2)

/-- `ob_refcnt` of the object at `p`; an absent (deallocated) object reads 0. -/
def refcnt (h : Heap) (p : Ptr) : Int :=
  match h.find? p with
  | some o => o.refcnt
  | none => 0

def present (h : Heap) (p : Ptr) : Bool :=
  (h.find? p).isSome

def itemsOf (h : Heap) (p : Ptr) : List Ptr :=
  match h.find? p with
  | some o => o.items
  | none => []

/-- Allocate a fresh foreign object (refcount as given); returns its pointer. -/
def alloc (h : Heap) (o : PyObj) : Ptr × Heap :=
  (h.next, ⟨(h.next, o) :: h.mem, h.next + 1⟩)

/-- Update the object stored at `p` (no effect if absent). -/
def update (h : Heap) (p : Ptr) (f : PyObj → PyObj) : Heap :=
  ⟨h.mem.map (fun e => if e.1 = p then (e.1, f e.2) else e), h.next⟩

def remove (h : Heap) (p : Ptr) : Heap :=
  ⟨h.mem.filter (fun e => ¬ e.1 = p), h.next⟩

/-- `Py_INCREF`. -/
def incref (h : Heap) (p : Ptr) : Heap :=
  h.update p (fun o => { o with refcnt := o.refcnt + 1 })

/-- `Py_DECREF` with deallocation: decrement; a count reaching exactly 0
deallocates the object and releases the references held on its non-null items.
`fuel` bounds the cascade depth (each level deallocates one object). -/
def decRefCore : Nat → Ptr → Heap → Heap
  | 0, _, h => h
  | fuel + 1, p, h =>
    match h.find? p with
    | none => h
    | some o =>
      if o.refcnt - 1 = 0 then
        (o.items.filter (fun q => ¬ q = 0)).foldl
          (fun hh q => decRefCore fuel q hh) (h.remove p)
      else
        h.update p (fun oo => { oo with refcnt := oo.refcnt - 1 })

/-- `Py_DECREF` entry point: the heap size bounds the deallocation cascade. -/
def decRef (h : Heap) (p : Ptr) : Heap :=
  decRefCore (h.mem.length + 1) p h

/-- `PyList_Append`: append the item pointer and take a new reference on it. -/
def appendItem (h : Heap) (l : Ptr) (q : Ptr) : Heap :=
  (h.update l (fun o => { o with items := o.items ++ [q] })).incref q

/-- `PyTuple_SetItem` / `PyList_SetItem`: store the item pointer at slot `i`,
stealing the caller's reference (no count change; the facade only ever fills
freshly created null slots). -/
def setItem (h : Heap) (t : Ptr) (i : Nat) (q : Ptr) : Heap :=
  h.update t (fun o => { o with items := o.items.set i q })

def kindOf (h : Heap) (p : Ptr) : PyKind :=
  match h.find? p with
  | some o => o.kind
  | none => .otherK

/-- `p` is held as an item by no object of the heap. -/
def NotAnItem (h : Heap) (p : Ptr) : Prop := ∀ e ∈ h.mem, p ∉ e.2.items

end Heap

/-- Failures surfaced by the library, by C++ exception class:
`BindingLogicError` (a `std::logic_error`), `BindingException` (a
`ShlubluException`, thrown by the facade's `__throwException`) and
`ShlubluException` itself (thrown by `MutexLock`). -/
inductive Err where
  | bindingLogicError (msg : String)
  | bindingException (msg : String)
  | shlubluException (msg : String)
deriving DecidableEq, Repr

/-- `Python::ObjectHandler` (Python_ObjectHandler.cpp): a foreign pointer
paired with a locally assigned sequence id. -/
structure ObjectHandler where
  mPyObj : Ptr
  mId : Nat
deriving DecidableEq, Repr

namespace ObjectHandler

/-- `ObjectHandler::nextId()`: `++sSequence` on a `uint64_t`, so the value
wraps modulo `2 ^ 64`. Returns the new id and the updated sequence counter. -/
def nextId (sSequence : Nat) : Nat × Nat :=
  let r := (sSequence + 1) % 2 ^ 64
  (r, r)

/-- `ObjectHandler::ObjectHandler()`: null pointer, id 0 (the sentinel). -/
def default : ObjectHandler := ⟨0, 0⟩

/-- `ObjectHandler::ObjectHandler(PyObject*)`: fresh id from the sequence. -/
def fromPtr (p : Ptr) (sSequence : Nat) : ObjectHandler × Nat :=
  let (i, s) := nextId sSequence
  (⟨p, i⟩, s)

/-- Copy construction: copies both fields, allocates no id. -/
def copy (h : ObjectHandler) : ObjectHandler := ⟨h.mPyObj, h.mId⟩

/-- `operator ==`: equality is by id only. -/
def eq (a b : ObjectHandler) : Bool := a.mId == b.mId

end ObjectHandler

/-- `Python::ObjectHandlersCollection` (Python_ObjectHandlersCollection.cpp):
an unordered set of handles hashed and compared by id. -/
structure ObjectHandlersCollection where
  mObjects : List ObjectHandler
deriving DecidableEq, Repr

namespace ObjectHandlersCollection

/-- `isRegistered`: `mObjects.count(oh) > 0`, membership keyed by id. -/
def isRegistered (c : ObjectHandlersCollection) (oh : ObjectHandler) : Bool :=
  c.mObjects.any (fun x => x.mId == oh.mId)

/-- `mObjects.erase(oh)`: drop the entries whose key (id) equals `oh`'s. -/
def erase (c : ObjectHandlersCollection) (oh : ObjectHandler) : ObjectHandlersCollection :=
  ⟨c.mObjects.filter (fun x => ¬ x.mId = oh.mId)⟩

/-- `registerObject`: logic error if the id is already present, otherwise
insert and return the canonical stored handle. -/
def registerObject (c : ObjectHandlersCollection) (oh : ObjectHandler) :
    Except Err (ObjectHandler × ObjectHandlersCollection) :=
  if c.isRegistered oh then
    .error (.bindingLogicError "ObjectHandlersCollection::registerObject(): object id is already registered.")
  else
    .ok (oh, ⟨oh :: c.mObjects⟩)

/-- `unregisterObject`: logic error if absent, otherwise erase. -/
def unregisterObject (c : ObjectHandlersCollection) (oh : ObjectHandler) :
    Except Err ObjectHandlersCollection :=
  if ¬ c.isRegistered oh then
    .error (.bindingLogicError "ObjectHandlersCollection::registerObject(): object id is not registered.")
  else
    .ok (c.erase oh)

def size (c : ObjectHandlersCollection) : Nat := c.mObjects.length

def clear (_ : ObjectHandlersCollection) : ObjectHandlersCollection := ⟨[]⟩

end ObjectHandlersCollection

/-- `MutexLock` (MutexLock.cpp): recursion level and owning thread id
(`none` models the default-constructed `std::thread::id()`, owned by nobody). -/
structure MutexLock where
  mLockLevel : Nat
  mOwnerId : Option Nat
deriving DecidableEq, Repr

namespace MutexLock

def lockLevel (m : MutexLock) : Nat := m.mLockLevel

/-- `currentThreadIsOwner()`, for the calling thread `tid`. -/
def currentThreadIsOwner (m : MutexLock) (tid : Nat) : Bool :=
  some tid == m.mOwnerId

/-- `MutexLock::unlock()` called by thread `tid`: throws unless the caller
owns the lock and the level is positive; otherwise releases one level and
clears the owner when the level reaches 0. -/
def unlock (m : MutexLock) (tid : Nat) : Except Err MutexLock :=
  if m.currentThreadIsOwner tid then
    if m.lockLevel > 0 then
      .ok { mLockLevel := m.mLockLevel - 1,
            mOwnerId := if m.mLockLevel - 1 = 0 then none else m.mOwnerId }
    else
      .error (.shlubluException "MutexLock::unlock(): trying to unlock while lock level is 0")
  else
    .error (.shlubluException "MutexLock::unlock(): trying to unlock while not having ownership.")

end MutexLock

/-- The process-wide state of the `Python` facade (namespaced `Python.cpp`):
the foreign heap, `__sArgv0` (the decoded program name, `none` when the
interpreter is down), the foreign `sys.path`, the `__modules` and
`__callables` caches, the `__sObjects` registry and `ObjectHandler`'s
static id sequence. The facade's single global lock serialises every
operation, so operations are functions on this whole state. -/
structure PyState where
  heap : Heap
  argv0 : Option String
  sysPath : List String
  modules : List (String × Ptr)
  callables : List (Ptr × String × Ptr)
  sObjects : ObjectHandlersCollection
  seq : Nat
deriving DecidableEq, Repr

namespace Python

/-- `Python::isInitialized()`: `__sArgv0 != nullptr`. -/
def isInitialized (s : PyState) : Bool := s.argv0.isSome

/-- The exception thrown by `__shouldBeInitialized()`. -/
def notInitializedErr : Err :=
  .bindingException "__shouldBeInitialized(): not in initialized state."

/-- `__decRef`: defensive decrement — throws if the count is already below 1,
otherwise performs `Py_DECREF`. The throw happens before any mutation. -/
def decRefChecked (h : Heap) (p : Ptr) : Except Err Heap :=
  if h.refcnt p < 1 then
    .error (.bindingException "Python::__DecRef(): references count is already non-positive")
  else
    .ok (h.decRef p)

/-- `__handleObjectUnregistration`: retain (`Py_INCREF`) when `keepArg`,
otherwise unregister the handle if (and only if) it is registered. -/
def handleObjectUnregistration (st : Heap × ObjectHandlersCollection)
    (object : ObjectHandler) (keepArg : Bool) :
    Except Err (Heap × ObjectHandlersCollection) :=
  if keepArg then
    .ok (st.1.incref object.mPyObj, st.2)
  else if st.2.isRegistered object then
    (st.2.unregisterObject object).map (fun c => (st.1, c))
  else
    .ok st

def moduleMain : String := "__main__"
def moduleBuiltins : String := "builtins"

/-
Facade operations are modelled as `PyState → Except Err α × PyState`: the
returned state is the global state when the operation returns or throws, so
mutations performed before a C++ throw are preserved, exactly as with the
static globals of `Python.cpp`.
-/

/-- `Python::execute(RawCode)`: hands opaque source to the foreign
interpreter. The executed code is foreign-side and outside this model's
observables, so a successful run leaves the modelled state unchanged. -/
def execute (_code : String) (s : PyState) : Except Err Unit × PyState :=
  if ¬ isInitialized s then (.error notInitializedErr, s)
  else (.ok (), s)

/-- `Python::import`: return the cached module pointer, or decode the name
(a fresh foreign string), import (a fresh foreign module object holding one
reference), release the decoded name and cache the module. -/
def importModule (moduleName : String) (s : PyState) : Except Err Ptr × PyState :=
  if ¬ isInitialized s then (.error notInitializedErr, s)
  else
    match s.modules.find? (fun e => e.1 = moduleName) with
    | some e => (.ok e.2, s)
    | none =>
      let (pName, h1) := s.heap.alloc ⟨1, [], .strK moduleName⟩
      let (pMod, h2) := h1.alloc ⟨1, [], .moduleK⟩
      if pMod = 0 then
        (.error (.bindingException "Python::import(): Cannot import module"), { s with heap := h2 })
      else
        match decRefChecked h2 pName with
        | .error e => (.error e, { s with heap := h2 })
        | .ok h3 => (.ok pMod, { s with heap := h3, modules := (moduleName, pMod) :: s.modules })

/-- `Python::module`: cache lookup only; throws if the module was not imported. -/
def moduleOf (moduleName : String) (s : PyState) : Except Err Ptr × PyState :=
  if ¬ isInitialized s then (.error notInitializedErr, s)
  else
    match s.modules.find? (fun e => e.1 = moduleName) with
    | some e => (.ok e.2, s)
    | none => (.error (.bindingException "Python::module(): Cannot retrieve module in imported modules"), s)

/-- The trailing loop of `Python::init`: `execute` an idempotent
`sys.path.append` for each entry, skipping entries already present. -/
def initPathEntries (pathList : List String) (s : PyState) : PyState :=
  let sp := pathList.foldl (fun sp entry => if entry ∈ sp then sp else sp ++ [entry]) s.sysPath
  { s with sysPath := sp }

/-- `Python::init`: first call decodes the program name, boots the foreign
interpreter (fresh `sys.path`, then `sys.path.append('.')` via `execute`) and
imports `__main__` and `builtins`; subsequent calls skip all of that. Both
paths then append the given path entries not already present. -/
def init (programName : String) (pathList : List String) (s : PyState) :
    Except Err Unit × PyState :=
  if s.argv0.isNone then
    let t : PyState := { s with argv0 := some programName, sysPath := ["."] }
    match importModule moduleMain t with
    | (.error e, t') => (.error e, t')
    | (.ok _, t1) =>
      match importModule moduleBuiltins t1 with
      | (.error e, t') => (.error e, t')
      | (.ok _, t2) => (.ok (), initPathEntries pathList t2)
  else
    (.ok (), initPathEntries pathList s)

/-- The release loops of `Python::shutdown`: `__decRef` each pointer in
turn; a throw keeps the updates made so far. -/
def decRefAll : List Ptr → Heap → Except Err Heap × Heap
  | [], h => (.ok h, h)
  | p :: tl, h =>
    match decRefChecked h p with
    | .error e => (.error e, h)
    | .ok h1 => decRefAll tl h1

/-- `Python::shutdown`: nothing to do when already uninitialized; otherwise
release every cached callable, every registered object and every cached
module (clearing each container once released), then finalize the
interpreter (dropping all foreign state) and free `__sArgv0`. The
`ObjectHandler` id sequence is a separate static and persists. -/
def shutdown (s : PyState) : Except Err Unit × PyState :=
  match s.argv0 with
  | none => (.ok (), s)
  | some _ =>
    match decRefAll (s.callables.map (fun e => e.2.2)) s.heap with
    | (.error e, h') => (.error e, { s with heap := h' })
    | (.ok h1, _) =>
      let s1 := { s with heap := h1, callables := [] }
      match decRefAll (s.sObjects.mObjects.map (fun o => o.mPyObj)) h1 with
      | (.error e, h') => (.error e, { s1 with heap := h' })
      | (.ok h2, _) =>
        let s2 := { s1 with heap := h2, sObjects := ⟨[]⟩ }
        match decRefAll (s.modules.map (fun e => e.2)) h2 with
        | (.error e, h') => (.error e, { s2 with heap := h' })
        | (.ok _, _) =>
          let fin : PyState := ⟨⟨[], 1⟩, none, [], [], [], ⟨[]⟩, s.seq⟩
          (.ok (), fin)

/-- `Python::object(scope, name)`: `PyObject_GetAttrString` produces a fresh
foreign object holding one reference; a null result throws; the new handle
(fresh id) is registered and the stored handle returned. -/
def object (_scope : Ptr) (_objectName : String) (s : PyState) :
    Except Err ObjectHandler × PyState :=
  if ¬ isInitialized s then (.error notInitializedErr, s)
  else
    let (p, h1) := s.heap.alloc ⟨1, [], .otherK⟩
    let (oh, seq1) := ObjectHandler.fromPtr p s.seq
    let s1 := { s with heap := h1, seq := seq1 }
    if p = 0 then
      (.error (.bindingException "Python::object(): Cannot access to object"), s1)
    else
      match s1.sObjects.registerObject oh with
      | .error e => (.error e, s1)
      | .ok (ret, coll1) => (.ok ret, { s1 with sObjects := coll1 })

/-- `Python::callable(scope, name, forceReload)`: resolve through the
callables cache; on (re)load, `PyObject_GetAttrString` yields a fresh
foreign callable, a previously cached entry is released, and the cache
updated. -/
def callableOf (scope : Ptr) (callableName : String) (forceReload : Bool)
    (s : PyState) : Except Err Ptr × PyState :=
  if ¬ isInitialized s then (.error notInitializedErr, s)
  else
    match s.callables.find? (fun e => e.1 = scope ∧ e.2.1 = callableName), forceReload with
    | some e, false => (.ok e.2.2, s)
    | cached, _ =>
      let (p, h1) := s.heap.alloc ⟨1, [], .callableK⟩
      let s1 := { s with heap := h1 }
      if p = 0 then
        (.error (.bindingException "Python::callable(): Cannot access to callable"), s1)
      else
        let newCache := (scope, callableName, p) ::
          s.callables.filter (fun e => ¬ (e.1 = scope ∧ e.2.1 = callableName))
        match cached with
        | some e =>
          match decRefChecked h1 e.2.2 with
          | .error er => (.error er, s1)
          | .ok h2 => (.ok p, { s with heap := h2, callables := newCache })
        | none => (.ok p, { s with heap := h1, callables := newCache })

/-- The element loop shared by `Python::tuple` and `Python::list`:
`__handleObjectUnregistration` then a stealing `SetItem` at each position. -/
def fillContainer (tp : Ptr) (keepArguments : Bool) :
    List ObjectHandler → Heap × ObjectHandlersCollection × Nat →
    Except Err Unit × (Heap × ObjectHandlersCollection × Nat)
  | [], st => (.ok (), st)
  | a :: tl, (h, c, pos) =>
    match handleObjectUnregistration (h, c) a keepArguments with
    | .error e => (.error e, (h, c, pos))
    | .ok (h', c') => fillContainer tp keepArguments tl (h'.setItem tp pos a.mPyObj, c', pos + 1)

/-- The shared body of `Python::tuple` and `Python::list` (the two source
functions are identical up to the foreign constructor used and the error
message): create the foreign container (one reference, all slots null),
register its handle (fresh id), then for each argument unregister-or-retain
and steal it into its slot. -/
def containerNew (K : PyKind) (errMsg : String) (args : List ObjectHandler)
    (keepArguments : Bool) (s : PyState) : Except Err ObjectHandler × PyState :=
  if ¬ isInitialized s then (.error notInitializedErr, s)
  else
    let (p, h1) := s.heap.alloc ⟨1, List.replicate args.length 0, K⟩
    let (oh, seq1) := ObjectHandler.fromPtr p s.seq
    let s1 := { s with heap := h1, seq := seq1 }
    if p = 0 then
      (.error (.bindingException errMsg), s1)
    else
      match s1.sObjects.registerObject oh with
      | .error e => (.error e, s1)
      | .ok (ret, coll1) =>
        match fillContainer p keepArguments args (h1, coll1, 0) with
        | (.error e, (h', c', _)) => (.error e, { s1 with heap := h', sObjects := c' })
        | (.ok (), (h2, coll2, _)) => (.ok ret, { s1 with heap := h2, sObjects := coll2 })

/-- `Python::tuple(args, keepArguments)`: `PyTuple_New` + the shared body. -/
def tuple (args : List ObjectHandler) (keepArguments : Bool) (s : PyState) :
    Except Err ObjectHandler × PyState :=
  containerNew .tupleK "Python::tuple(): failure in creating tuple" args keepArguments s

/-- `Python::list(args, keepArguments)`: `PyList_New` + the shared body. -/
def list (args : List ObjectHandler) (keepArguments : Bool) (s : PyState) :
    Except Err ObjectHandler × PyState :=
  containerNew .listK "Python::list(): failure in creating list" args keepArguments s

/-- `Python::addList(objList, item, keepArguments)`: throws unless `objList`
is a foreign list; unregister-or-retain the item, `PyList_Append` (the list
takes its own reference on the item) then `__decRef` the item. -/
def addList (objList item : ObjectHandler) (keepArguments : Bool) (s : PyState) :
    Except Err Unit × PyState :=
  if ¬ isInitialized s then (.error notInitializedErr, s)
  else if ¬ s.heap.kindOf objList.mPyObj = PyKind.listK then
    (.error (.bindingException "Python::addList(): Trying to add an item to an object that is not a list"), s)
  else
    match handleObjectUnregistration (s.heap, s.sObjects) item keepArguments with
    | .error e => (.error e, s)
    | .ok (h1, c1) =>
      let h2 := h1.appendItem objList.mPyObj item.mPyObj
      match decRefChecked h2 item.mPyObj with
      | .error e => (.error e, { s with heap := h2, sObjects := c1 })
      | .ok h3 => (.ok (), { s with heap := h3, sObjects := c1 })

/-- `Python::fromAscii(str)`: `PyUnicode_FromWideChar` produces a fresh
foreign string holding one reference; its handle (fresh id) is registered
and returned. -/
def fromAscii (str : String) (s : PyState) : Except Err ObjectHandler × PyState :=
  if ¬ isInitialized s then (.error notInitializedErr, s)
  else
    let (p, h1) := s.heap.alloc ⟨1, [], .strK str⟩
    let (oh, seq1) := ObjectHandler.fromPtr p s.seq
    let s1 := { s with heap := h1, seq := seq1 }
    match s1.sObjects.registerObject oh with
    | .error e => (.error e, s1)
    | .ok (ret, coll1) => (.ok ret, { s1 with sObjects := coll1 })

/-- `Python::toAscii(object, keepArg)`: throws unless the object is a
foreign unicode string; converts, then unregister-or-retain and, when not
retaining, `__decRef` the argument. -/
def toAscii (object : ObjectHandler) (keepArg : Bool) (s : PyState) :
    Except Err String × PyState :=
  if ¬ isInitialized s then (.error notInitializedErr, s)
  else
    match s.heap.kindOf object.mPyObj with
    | .strK payload =>
      (match handleObjectUnregistration (s.heap, s.sObjects) object keepArg with
       | .error e => (.error e, s)
       | .ok (h1, c1) =>
         if keepArg then (.ok payload, { s with heap := h1, sObjects := c1 })
         else
           match decRefChecked h1 object.mPyObj with
           | .error e => (.error e, { s with heap := h1, sObjects := c1 })
           | .ok h2 => (.ok payload, { s with heap := h2, sObjects := c1 }))
    | _ =>
      (.error (.bindingException "Python::toAscii(): Trying to convert an object that is not a Unicode string to an ASCII string"), s)

/-- `Python::keepArgument(object)`: throws unless registered; `Py_INCREF`
then register a second handle (fresh id) for the same pointer. -/
def keepArgument (object : ObjectHandler) (s : PyState) :
    Except Err ObjectHandler × PyState :=
  if ¬ isInitialized s then (.error notInitializedErr, s)
  else if ¬ s.sObjects.isRegistered object then
    (.error (.bindingException "Python::keepArgument(): object is not under control"), s)
  else
    let h1 := s.heap.incref object.mPyObj
    let (nh, seq1) := ObjectHandler.fromPtr object.mPyObj s.seq
    let s1 := { s with heap := h1, seq := seq1 }
    match s1.sObjects.registerObject nh with
    | .error e => (.error e, s1)
    | .ok (ret, coll1) => (.ok ret, { s1 with sObjects := coll1 })

/-- `Python::controlArgument(object)`: throws if already registered;
otherwise register the very same handle, touching no reference count. -/
def controlArgument (object : ObjectHandler) (s : PyState) :
    Except Err ObjectHandler × PyState :=
  if ¬ isInitialized s then (.error notInitializedErr, s)
  else if s.sObjects.isRegistered object then
    (.error (.bindingException "Python::controlArgument(): Trying to give control of an object that is already under control"), s)
  else
    match s.sObjects.registerObject object with
    | .error e => (.error e, s)
    | .ok (ret, coll1) => (.ok ret, { s with sObjects := coll1 })

/-- `Python::forgetArgument(object)`: throws unless registered; `__decRef`
the foreign object (which throws, mutating nothing, if its count is below 1)
then remove the registry entry. -/
def forgetArgument (object : ObjectHandler) (s : PyState) :
    Except Err Unit × PyState :=
  if ¬ isInitialized s then (.error notInitializedErr, s)
  else if ¬ s.sObjects.isRegistered object then
    (.error (.bindingException "Python::forgetArgument(): Trying to forget an object that is not under control"), s)
  else
    match decRefChecked s.heap object.mPyObj with
    | .error e => (.error e, s)
    | .ok h1 =>
      match s.sObjects.unregisterObject object with
      | .error e => (.error e, { s with heap := h1 })
      | .ok coll1 => (.ok (), { s with heap := h1, sObjects := coll1 })

/-- `Python::call(callableObject, args, keepArguments)`: pack the arguments
into a tuple (when there are any), invoke the callable (a fresh foreign
result holding one reference), forget the argument tuple, throw on a null
result, and register the result's handle (fresh id). -/
def call (_callableObject : Ptr) (args : List ObjectHandler) (keepArguments : Bool)
    (s : PyState) : Except Err ObjectHandler × PyState :=
  if ¬ isInitialized s then (.error notInitializedErr, s)
  else
    match (if args.length ≠ 0 then
            match tuple args keepArguments s with
            | (.error e, s') => (.error e, s')
            | (.ok t, s') => (.ok (some t), s')
          else (.ok none, s) : Except Err (Option ObjectHandler) × PyState) with
    | (.error e, s') => (.error e, s')
    | (.ok argsTuple?, s1) =>
      let (pRet, h1) := s1.heap.alloc ⟨1, [], .otherK⟩
      let s2 := { s1 with heap := h1 }
      match (match argsTuple? with
             | some t => forgetArgument t s2
             | none => (.ok (), s2) : Except Err Unit × PyState) with
      | (.error e, s') => (.error e, s')
      | (.ok (), s3) =>
        if pRet = 0 then
          (.error (.bindingException "Python::call(): failure in calling callable"), s3)
        else
          let (oh, seq1) := ObjectHandler.fromPtr pRet s3.seq
          let s4 := { s3 with seq := seq1 }
          match s4.sObjects.registerObject oh with
          | .error e => (.error e, s4)
          | .ok (ret, coll1) => (.ok ret, { s4 with sObjects := coll1 })

end Python

/-! ## Concrete states used by the witnesses -/

/-- A small initialized facade state: one scalar foreign object at pointer 1
holding 2 references, registered under handle id 1; sequence at 5. -/
def sampleInit : PyState :=
  ⟨⟨[(1, ⟨2, [], .otherK⟩)], 2⟩, some "prog", ["."], [], [], ⟨[⟨1, 1⟩]⟩, 5⟩

/-- An uninitialized facade state. -/
def sampleUninit : PyState := ⟨⟨[], 1⟩, none, [], [], [], ⟨[]⟩, 0⟩

/-- An initialized state holding a foreign list (pointer 1, one reference)
and a foreign string (pointer 2, three references), nothing registered. -/
def sampleListStr : PyState :=
  ⟨⟨[(1, ⟨1, [], .listK⟩), (2, ⟨3, [], .strK "ab"⟩)], 3⟩, some "prog", ["."], [], [], ⟨[]⟩, 5⟩

/-- An initialized state with one registered handle whose foreign count is
already 0 (a double-free situation). -/
def sampleZero : PyState :=
  ⟨⟨[(1, ⟨0, [], .otherK⟩)], 2⟩, some "prog", ["."], [], [], ⟨[⟨1, 1⟩]⟩, 3⟩

/-- An initialized state with two registered scalar objects (pointers 1 and 2,
counts 2 and 3, handle ids 1 and 2). -/
def samplePair : PyState :=
  ⟨⟨[(1, ⟨2, [], .otherK⟩), (2, ⟨3, [], .otherK⟩)], 3⟩, some "prog", ["."], [], [], ⟨[⟨1, 1⟩, ⟨2, 2⟩]⟩, 5⟩

/-! ## Basic lemmas about the registry -/

namespace ObjectHandlersCollection

theorem isRegistered_iff (c : ObjectHandlersCollection) (oh : ObjectHandler) :
    c.isRegistered oh = true ↔ ∃ x ∈ c.mObjects, x.mId = oh.mId := by
  simp [isRegistered, List.any_eq_true]

theorem registerObject_fresh (c : ObjectHandlersCollection) (oh : ObjectHandler)
    (h : ∀ x ∈ c.mObjects, x.mId ≠ oh.mId) :
    c.registerObject oh = .ok (oh, ⟨oh :: c.mObjects⟩) := by
  have : c.isRegistered oh = false := by
    simp [isRegistered, List.any_eq_true]
    exact fun x hx => h x hx
  simp [registerObject, this]

theorem isRegistered_erase_self (c : ObjectHandlersCollection) (oh : ObjectHandler) :
    (c.erase oh).isRegistered oh = false := by
  simp [erase, isRegistered, List.any_eq_true, List.mem_filter]

theorem mem_erase_of_ne (c : ObjectHandlersCollection) (oh x : ObjectHandler)
    (hx : x ∈ c.mObjects) (hne : x.mId ≠ oh.mId) : x ∈ (c.erase oh).mObjects := by
  simp [erase, List.mem_filter, hx, hne]

end ObjectHandlersCollection

/-! ## Basic lemmas about the heap -/

namespace Heap

theorem find?_update (h : Heap) (p : Ptr) (f : PyObj → PyObj) (q : Ptr) :
    (h.update p f).find? q = if q = p then (h.find? q).map f else h.find? q := by
  unfold update find?
  rw [List.find?_map]
  have hpred : ((fun e : Ptr × PyObj => decide (e.1 = q)) ∘
      (fun e : Ptr × PyObj => if e.1 = p then (e.1, f e.2) else e)) =
      fun e : Ptr × PyObj => decide (e.1 = q) := by
    funext e
    by_cases hep : e.1 = p <;> simp [hep]
  rw [hpred]
  cases hf : h.mem.find? (fun e => decide (e.1 = q)) with
  | none => by_cases hqp : q = p <;> simp [hqp]
  | some e =>
    have he : e.1 = q := by simpa using List.find?_some hf
    by_cases hqp : q = p
    · subst hqp
      simp [he]
    · have hep : ¬ e.1 = p := by rw [he]; exact hqp
      simp [hqp, hep]

theorem find?_remove (h : Heap) (p : Ptr) (q : Ptr) :
    (h.remove p).find? q = if q = p then none else h.find? q := by
  unfold remove find?
  rw [List.find?_filter]
  by_cases hqp : q = p
  · subst hqp
    rw [if_pos rfl]
    have : h.mem.find?
        (fun e => decide ((decide ¬ e.1 = q) = true ∧ (decide (e.1 = q)) = true)) = none := by
      rw [List.find?_eq_none]
      intro e _
      by_cases he : e.1 = q <;> simp [he]
    rw [this]
    rfl
  · rw [if_neg hqp]
    have hpred : (fun e : Ptr × PyObj =>
        decide ((decide ¬ e.1 = p) = true ∧ (decide (e.1 = q)) = true)) =
        fun e : Ptr × PyObj => decide (e.1 = q) := by
      funext e
      by_cases he : e.1 = q
      · have : ¬ e.1 = p := by rw [he]; exact hqp
        simp [he, this, hqp]
      · simp [he]
    rw [hpred]

theorem refcnt_update_ne (h : Heap) (p : Ptr) (f : PyObj → PyObj) (q : Ptr)
    (hne : q ≠ p) : (h.update p f).refcnt q = h.refcnt q := by
  simp [refcnt, find?_update, hne]

theorem find?_alloc_self (h : Heap) (o : PyObj) :
    ((h.alloc o).2).find? (h.alloc o).1 = some o := by
  unfold alloc find?
  rw [List.find?_cons_of_pos _ (by simp)]
  rfl

theorem find?_alloc_ne (h : Heap) (o : PyObj) (q : Ptr) (hne : q ≠ h.next) :
    ((h.alloc o).2).find? q = h.find? q := by
  unfold alloc find?
  rw [List.find?_cons_of_neg _ (by simp [Ne.symm hne])]

theorem find?_incref_ne (h : Heap) (p q : Ptr) (hne : q ≠ p) :
    (h.incref p).find? q = h.find? q := by
  simp [incref, find?_update, hne]

theorem find?_setItem_ne (h : Heap) (t : Ptr) (i : Nat) (v : Ptr) (q : Ptr)
    (hne : q ≠ t) : (h.setItem t i v).find? q = h.find? q := by
  simp [setItem, find?_update, hne]

theorem refcnt_setItem (h : Heap) (t : Ptr) (i : Nat) (v : Ptr) (q : Ptr) :
    (h.setItem t i v).refcnt q = h.refcnt q := by
  by_cases hq : q = t
  · subst hq
    simp only [refcnt, setItem, find?_update, if_pos rfl]
    cases h.find? q <;> simp
  · simp [refcnt, setItem, find?_update, hq]

theorem mem_of_find? (h : Heap) (p : Ptr) (o : PyObj)
    (hf : h.find? p = some o) : (p, o) ∈ h.mem := by
  unfold find? at hf
  cases hfind : h.mem.find? (fun e => decide (e.1 = p)) with
  | none =>
    rw [hfind] at hf
    simp at hf
  | some e =>
    rw [hfind] at hf
    simp only [Option.map_some'] at hf
    have h1 : e.1 = p := by simpa using List.find?_some hfind
    have h2 := List.mem_of_find?_eq_some hfind
    have heq : e = (p, o) := by
      cases e
      simp_all
    rwa [heq] at h2

theorem refcnt_pos_find? (h : Heap) (p : Ptr) (hc : 1 ≤ h.refcnt p) :
    ∃ o, h.find? p = some o ∧ o.refcnt = h.refcnt p := by
  unfold refcnt at hc ⊢
  cases hf : h.find? p with
  | none => rw [hf] at hc; norm_num at hc
  | some o => exact ⟨o, rfl, rfl⟩

/-- Auxiliary: a deallocation fold keeps an absent pointer absent, given
that each single `decRefCore` step (at fuel `n`) does. -/
theorem foldl_decRefCore_absent (p : Ptr) (n : Nat)
    (ih : ∀ (q : Ptr) (h : Heap), h.find? p = none → (decRefCore n q h).find? p = none) :
    ∀ (l : List Ptr) (h0 : Heap), h0.find? p = none →
      (l.foldl (fun hh q => decRefCore n q hh) h0).find? p = none := by
  intro l
  induction l with
  | nil => intro h0 h0p; simpa using h0p
  | cons r tl ihl =>
    intro h0 h0p
    exact ihl (decRefCore n r h0) (ih r h0 h0p)

/-- `decRefCore` never resurrects a deallocated object. -/
theorem decRefCore_absent (p : Ptr) : ∀ (fuel : Nat) (q : Ptr) (h : Heap),
    h.find? p = none → (decRefCore fuel q h).find? p = none := by
  intro fuel
  induction fuel with
  | zero => intro q h hp; simpa [decRefCore] using hp
  | succ n ih =>
    intro q h hp
    rw [decRefCore]
    cases hq : h.find? q with
    | none => exact hp
    | some o =>
      dsimp only
      by_cases hz : o.refcnt - 1 = 0
      · rw [if_pos hz]
        have hstart : (h.remove q).find? p = none := by
          rw [find?_remove]
          by_cases hpq : p = q <;> simp [hpq, hp]
        exact foldl_decRefCore_absent p n ih _ _ hstart
      · rw [if_neg hz, find?_update]
        by_cases hpq : p = q
        · subst hpq
          simp [hp]
        · simp [hpq, hp]

theorem notAnItem_update (h : Heap) (p p' : Ptr) (f : PyObj → PyObj)
    (hf : ∀ o, (f o).items = o.items) (hni : NotAnItem h p) :
    NotAnItem (h.update p' f) p := by
  intro e he
  obtain ⟨e0, he0, heq⟩ := List.mem_map.1 he
  subst heq
  by_cases hep : e0.1 = p' <;> simp [hep, hf, hni e0 he0]

theorem notAnItem_remove (h : Heap) (p q : Ptr) (hni : NotAnItem h p) :
    NotAnItem (h.remove q) p :=
  fun e he => hni e (List.mem_of_mem_filter he)

/-- Auxiliary: a deallocation fold over pointers other than `p` preserves
`p`'s entry and the no-reference property, given that each single
`decRefCore` step (at fuel `n`) does. -/
theorem foldl_decRefCore_preserve (p : Ptr) (n : Nat)
    (ih : ∀ (q : Ptr) (h : Heap), ¬ q = p → NotAnItem h p →
      (decRefCore n q h).find? p = h.find? p ∧ NotAnItem (decRefCore n q h) p) :
    ∀ (l : List Ptr) (h0 : Heap), (∀ r ∈ l, ¬ r = p) → NotAnItem h0 p →
      (l.foldl (fun hh q => decRefCore n q hh) h0).find? p = h0.find? p ∧
      NotAnItem (l.foldl (fun hh q => decRefCore n q hh) h0) p := by
  intro l
  induction l with
  | nil => intro h0 _ hni; exact ⟨rfl, hni⟩
  | cons r tl ihl =>
    intro h0 hl hni
    have hstep := ih r h0 (hl r (by simp)) hni
    have hrec := ihl (decRefCore n r h0) (fun r' hr' => hl r' (by simp [hr'])) hstep.2
    exact ⟨hrec.1.trans hstep.1, hrec.2⟩

/-- A `Py_DECREF` on `q ≠ p` does not disturb `p` when nothing references
`p`: the cascade only ever follows item pointers. -/
theorem decRefCore_preserve (p : Ptr) : ∀ (fuel : Nat) (q : Ptr) (h : Heap),
    ¬ q = p → NotAnItem h p →
    (decRefCore fuel q h).find? p = h.find? p ∧ NotAnItem (decRefCore fuel q h) p := by
  intro fuel
  induction fuel with
  | zero => intro q h _ hni; exact ⟨rfl, hni⟩
  | succ n ih =>
    intro q h hqp hni
    rw [decRefCore]
    cases hq : h.find? q with
    | none => exact ⟨rfl, hni⟩
    | some o =>
      dsimp only
      by_cases hz : o.refcnt - 1 = 0
      · rw [if_pos hz]
        have hmemq : (q, o) ∈ h.mem := h.mem_of_find? q o hq
        have hitems : ∀ r ∈ o.items.filter (fun r => ¬ r = 0), ¬ r = p := by
          intro r hr hrp
          exact hni (q, o) hmemq (hrp ▸ List.mem_of_mem_filter hr)
        have hstart : (h.remove q).find? p = h.find? p := by
          rw [find?_remove, if_neg (fun hpq => hqp hpq.symm)]
        have haux := foldl_decRefCore_preserve p n ih _ (h.remove q) hitems
          (h.notAnItem_remove p q hni)
        exact ⟨haux.1.trans hstart, haux.2⟩
      · rw [if_neg hz]
        constructor
        · rw [find?_update, if_neg (fun hpq => hqp hpq.symm)]
        · exact h.notAnItem_update p q _ (fun o => rfl) hni

/-- `Py_DECREF` decrements the count at its own pointer by exactly one
(a deallocated object reads count 0). -/
theorem decRef_refcnt_self (h : Heap) (p : Ptr) (hge : 1 ≤ h.refcnt p) :
    (h.decRef p).refcnt p = h.refcnt p - 1 := by
  obtain ⟨o, ho, hco⟩ := h.refcnt_pos_find? p hge
  unfold decRef
  rw [decRefCore, ho]
  dsimp only
  by_cases hz : o.refcnt - 1 = 0
  · rw [if_pos hz]
    have hstart : (h.remove p).find? p = none := by
      rw [find?_remove, if_pos rfl]
    have hfold := foldl_decRefCore_absent p h.mem.length
      (fun q h0 h0p => decRefCore_absent p h.mem.length q h0 h0p)
      (o.items.filter fun r => ¬ r = 0) (h.remove p) hstart
    simp only [refcnt, hfold, ho]
    omega
  · rw [if_neg hz, refcnt, find?_update, if_pos rfl, ho]
    simp [hco]

/-- `Py_INCREF` increments the count at its own (present) pointer. -/
theorem incref_refcnt_self (h : Heap) (p : Ptr) (o : PyObj)
    (ho : h.find? p = some o) : (h.incref p).refcnt p = o.refcnt + 1 := by
  rw [incref, refcnt, find?_update, if_pos rfl, ho]
  rfl

theorem refcnt_incref_ne (h : Heap) (p q : Ptr) (hne : q ≠ p) :
    (h.incref p).refcnt q = h.refcnt q := by
  rw [incref, refcnt, refcnt, find?_update, if_neg hne]

/-- `PyList_Append` raises the appended item's count by one. -/
theorem appendItem_refcnt_self (h : Heap) (l q : Ptr)
    (hq : (h.find? q).isSome) : (h.appendItem l q).refcnt q = h.refcnt q + 1 := by
  obtain ⟨o, ho⟩ := Option.isSome_iff_exists.1 hq
  unfold appendItem
  by_cases hql : q = l
  · have h'q : (h.update l (fun o => { o with items := o.items ++ [q] })).find? q =
        some { o with items := o.items ++ [q] } := by
      rw [find?_update, if_pos hql, ho]
      rfl
    rw [Heap.incref_refcnt_self _ q _ h'q]
    simp [Heap.refcnt, ho]
  · have h'q : (h.update l (fun o => { o with items := o.items ++ [q] })).find? q =
        some o := by
      rw [find?_update, if_neg hql, ho]
    rw [Heap.incref_refcnt_self _ q o h'q]
    simp [Heap.refcnt, ho]

theorem refcnt_eq_of_find? (h : Heap) (p : Ptr) (o : PyObj)
    (hf : h.find? p = some o) : h.refcnt p = o.refcnt := by
  simp [Heap.refcnt, hf]

theorem refcnt_congr (h1 h2 : Heap) (p : Ptr)
    (hf : h1.find? p = h2.find? p) : h1.refcnt p = h2.refcnt p := by
  simp [Heap.refcnt, hf]

theorem find?_cons_self (P : Ptr) (o : PyObj) (rest : List (Ptr × PyObj)) (n : Ptr) :
    (⟨(P, o) :: rest, n⟩ : Heap).find? P = some o := by
  unfold find?
  rw [List.find?_cons_of_pos _ (by simp)]
  rfl

theorem find?_cons_ne (P q : Ptr) (o : PyObj) (rest : List (Ptr × PyObj)) (n m : Ptr)
    (hne : q ≠ P) :
    (⟨(P, o) :: rest, n⟩ : Heap).find? q = (⟨rest, m⟩ : Heap).find? q := by
  unfold find?
  rw [List.find?_cons_of_neg _ (by simp [Ne.symm hne])]

/-- One `Py_DECREF` step on a scalar (no items): the count drops by one
(reading 0 when the object is deallocated) and no other entry changes. -/
theorem decRefCore_scalar_step (fuel : Nat) (h : Heap) (p : Ptr) (o : PyObj)
    (hp : h.find? p = some o) (hsc : o.items = []) :
    (decRefCore (fuel + 1) p h).refcnt p = o.refcnt - 1 ∧
    ∀ q, ¬ q = p → (decRefCore (fuel + 1) p h).find? q = h.find? q := by
  rw [decRefCore, hp]
  dsimp only
  by_cases hz : o.refcnt - 1 = 0
  · rw [if_pos hz, hsc]
    simp only [List.filter_nil, List.foldl_nil]
    constructor
    · rw [refcnt, find?_remove, if_pos rfl]
      show (0 : Int) = o.refcnt - 1
      omega
    · intro q hq
      rw [find?_remove, if_neg hq]
  · rw [if_neg hz]
    constructor
    · rw [refcnt, find?_update, if_pos rfl, hp]
      rfl
    · intro q hq
      rw [find?_update, if_neg hq]

/-- Unfolding `Py_DECREF` at a known entry whose count reaches zero. -/
theorem decRef_eq_dealloc (h : Heap) (p : Ptr) (o : PyObj)
    (hp : h.find? p = some o) (hz : o.refcnt - 1 = 0) :
    h.decRef p = (o.items.filter (fun q => ¬ q = 0)).foldl
      (fun hh q => decRefCore h.mem.length q hh) (h.remove p) := by
  rw [decRef, decRefCore, hp]
  dsimp only
  rw [if_pos hz]

theorem notAnItem_setItem (h : Heap) (P tp : Ptr) (i : Nat) (v : Ptr)
    (hni : NotAnItem h P) (hvP : v ≠ P) : NotAnItem (h.setItem tp i v) P := by
  intro e he
  obtain ⟨e0, he0, heq⟩ := List.mem_map.1 he
  subst heq
  by_cases hep : e0.1 = tp
  · simp only [hep, if_pos rfl]
    intro hmem
    rcases List.mem_or_eq_of_mem_set hmem with hmem | hmem
    · exact hni e0 he0 hmem
    · exact hvP hmem.symm
  · simp only [hep, if_neg hep]
    exact hni e0 he0

theorem decRef_find?_preserve (h : Heap) (q P : Ptr) (hqp : ¬ q = P)
    (hni : NotAnItem h P) : (h.decRef q).find? P = h.find? P :=
  (decRefCore_preserve P (h.mem.length + 1) q h hqp hni).1

theorem decRefCore_next : ∀ (fuel : Nat) (q : Ptr) (h : Heap),
    (decRefCore fuel q h).next = h.next := by
  intro fuel
  induction fuel with
  | zero => intro q h; rfl
  | succ n ih =>
    intro q h
    rw [decRefCore]
    cases hq : h.find? q with
    | none => rfl
    | some o =>
      dsimp only
      by_cases hz : o.refcnt - 1 = 0
      · rw [if_pos hz]
        have haux : ∀ (l : List Ptr) (h0 : Heap), h0.next = h.next →
            (l.foldl (fun hh q => decRefCore n q hh) h0).next = h.next := by
          intro l
          induction l with
          | nil => intro h0 h0n; exact h0n
          | cons r tl ihl =>
            intro h0 h0n
            exact ihl (decRefCore n r h0) ((ih r h0).trans h0n)
        exact haux _ (h.remove q) rfl
      · rw [if_neg hz]
        rfl

theorem decRef_next (h : Heap) (p : Ptr) : (h.decRef p).next = h.next :=
  decRefCore_next _ p h

theorem find?_appendItem_self (h : Heap) (l q : Ptr) (o : PyObj)
    (ho : h.find? q = some o) : ((h.appendItem l q).find? q).isSome := by
  unfold appendItem incref
  rw [find?_update, if_pos rfl, find?_update]
  by_cases h2 : q = l
  · rw [if_pos h2, ho]
    rfl
  · rw [if_neg h2, ho]
    rfl

end Heap

/-! ## Theorems for the claims -/

open Python

/-- C6: `ObjectHandlersCollection::registerObject(h)` raises a
`BindingLogicError` iff a handle with `h`'s id is already present, otherwise
inserts `h` and returns the canonical stored handle; `unregisterObject(h)`
raises a `BindingLogicError` iff no handle with `h`'s id is present, and
otherwise removes it (no handle with that id remains; handles with other ids
are untouched). -/
theorem registry_register_unregister_spec
    (c : ObjectHandlersCollection) (h : ObjectHandler) :
    ((∃ x ∈ c.mObjects, x.mId = h.mId) →
        ∃ m, c.registerObject h = .error (.bindingLogicError m)) ∧
    ((¬ ∃ x ∈ c.mObjects, x.mId = h.mId) →
        c.registerObject h = .ok (h, ⟨h :: c.mObjects⟩)) ∧
    ((¬ ∃ x ∈ c.mObjects, x.mId = h.mId) →
        ∃ m, c.unregisterObject h = .error (.bindingLogicError m)) ∧
    ((∃ x ∈ c.mObjects, x.mId = h.mId) →
        c.unregisterObject h = .ok (c.erase h) ∧
        (∀ x ∈ (c.erase h).mObjects, x.mId ≠ h.mId) ∧
        (∀ x ∈ c.mObjects, x.mId ≠ h.mId → x ∈ (c.erase h).mObjects)) := by
  have hreg : c.isRegistered h = true ↔ ∃ x ∈ c.mObjects, x.mId = h.mId :=
    c.isRegistered_iff h
  refine ⟨fun he => ?_, fun he => ?_, fun he => ?_, fun he => ?_⟩
  · simp [ObjectHandlersCollection.registerObject, hreg.2 he]
  · exact c.registerObject_fresh h (by push_neg at he; exact he)
  · have : c.isRegistered h = false := by
      cases hb : c.isRegistered h
      · rfl
      · exact (he (hreg.1 hb)).elim
    simp [ObjectHandlersCollection.unregisterObject, this]
  · refine ⟨by simp [ObjectHandlersCollection.unregisterObject, hreg.2 he], ?_, ?_⟩
    · intro x hx
      simp only [ObjectHandlersCollection.erase, List.mem_filter,
        decide_eq_true_eq] at hx
      exact hx.2
    · exact fun x hx hne => c.mem_erase_of_ne h x hx hne

/-- C6 witness: a concrete registry holding id 3 rejects re-registration of
id 3, accepts id 4, rejects unregistration of id 4, and removes id 3. -/
theorem registry_register_unregister_spec_witness :
    (∃ m, ObjectHandlersCollection.registerObject ⟨[⟨10, 3⟩]⟩ ⟨11, 3⟩ =
        .error (.bindingLogicError m)) ∧
    (ObjectHandlersCollection.registerObject ⟨[⟨10, 3⟩]⟩ ⟨11, 4⟩ =
        .ok (⟨11, 4⟩, ⟨[⟨11, 4⟩, ⟨10, 3⟩]⟩)) ∧
    (∃ m, ObjectHandlersCollection.unregisterObject ⟨[⟨10, 3⟩]⟩ ⟨11, 4⟩ =
        .error (.bindingLogicError m)) ∧
    (ObjectHandlersCollection.unregisterObject ⟨[⟨10, 3⟩]⟩ ⟨10, 3⟩ =
        .ok ⟨[]⟩) := by
  have h1 := registry_register_unregister_spec ⟨[⟨10, 3⟩]⟩ ⟨11, 3⟩
  have h2 := registry_register_unregister_spec ⟨[⟨10, 3⟩]⟩ ⟨11, 4⟩
  have h3 := registry_register_unregister_spec ⟨[⟨10, 3⟩]⟩ ⟨10, 3⟩
  refine ⟨h1.1 (by decide), h2.2.1 (by decide), h2.2.2.1 (by decide), ?_⟩
  have := (h3.2.2.2 (by decide)).1
  simpa [ObjectHandlersCollection.erase] using this

/-- C8 counterexample: `sSequence` is a `uint64_t`, so at sequence value
`2 ^ 64 - 1` the increment wraps and the next constructed handle receives
id 0 — an id that is zero, not strictly greater than the previously assigned
id `2 ^ 64 - 1`, and equal (per `operator ==`, which compares ids only) to
the default-constructed sentinel. This refutes the claim as stated. -/
theorem handler_id_wraparound_counterexample :
    (ObjectHandler.fromPtr 5 (2 ^ 64 - 1)).1.mId = 0 ∧
    ObjectHandler.eq (ObjectHandler.fromPtr 5 (2 ^ 64 - 1)).1 ObjectHandler.default = true := by
  constructor
  · show (2 ^ 64 - 1 + 1) % 2 ^ 64 = 0
    norm_num
  · show ((2 ^ 64 - 1 + 1) % 2 ^ 64 == 0) = true
    norm_num

/-- C8 amended: as long as fewer than `2 ^ 64` ids have been assigned
(`sSequence + 1 < 2 ^ 64`), construction from a raw foreign pointer assigns
the fresh id `sSequence + 1`, which is nonzero and strictly greater than
every previously assigned id (all `≤ sSequence`); the default-constructed
handle has id 0 and a null pointer; copying preserves id and pointer and
does not advance the sequence; and two handles are equal iff their ids are
equal, independently of their pointers. -/
theorem handler_id_discipline (p : Ptr) (seq prior : Nat) (a b : ObjectHandler)
    (hseq : seq + 1 < 2 ^ 64) (hprior : prior ≤ seq) :
    (ObjectHandler.fromPtr p seq).1.mId = seq + 1 ∧
    (ObjectHandler.fromPtr p seq).1.mPyObj = p ∧
    (ObjectHandler.fromPtr p seq).2 = seq + 1 ∧
    (ObjectHandler.fromPtr p seq).1.mId ≠ 0 ∧
    prior < (ObjectHandler.fromPtr p seq).1.mId ∧
    ObjectHandler.default.mId = 0 ∧ ObjectHandler.default.mPyObj = 0 ∧
    ObjectHandler.copy a = a ∧
    (ObjectHandler.eq a b = true ↔ a.mId = b.mId) := by
  have hmod : (seq + 1) % 2 ^ 64 = seq + 1 := Nat.mod_eq_of_lt hseq
  have h5 : prior < (ObjectHandler.fromPtr p seq).1.mId := by
    show prior < (seq + 1) % 2 ^ 64
    rw [hmod]
    omega
  refine ⟨hmod, rfl, hmod, by rw [show (ObjectHandler.fromPtr p seq).1.mId =
    (seq + 1) % 2 ^ 64 from rfl, hmod]; omega, h5, rfl, rfl, rfl, ?_⟩
  simp [ObjectHandler.eq]

/-- C8 amended witness: at sequence value 7 a handle for pointer 42 gets
id 8, greater than the previously assigned id 7. -/
theorem handler_id_discipline_witness :
    (ObjectHandler.fromPtr 42 7).1.mId = 8 ∧
    (7 : Nat) < (ObjectHandler.fromPtr 42 7).1.mId ∧
    (ObjectHandler.eq ⟨1, 5⟩ ⟨2, 5⟩ = true) := by
  have h := handler_id_discipline 42 7 7 ⟨1, 5⟩ ⟨2, 5⟩ (by norm_num) (by norm_num)
  exact ⟨h.1, h.2.2.2.2.1, h.2.2.2.2.2.2.2.2.2 rfl⟩

/-- C10: `MutexLock::unlock()` raises a `ShlubluException` whenever the
calling thread is not the owner (in particular when nobody holds the lock),
and raises when the owner calls it with lock level 0; a release attempt by a
non-owner is never silently accepted. -/
theorem mutexlock_unlock_spec (m : MutexLock) (tid : Nat) :
    (m.currentThreadIsOwner tid = false →
        ∃ msg, m.unlock tid = .error (.shlubluException msg)) ∧
    (m.mOwnerId = none →
        ∃ msg, m.unlock tid = .error (.shlubluException msg)) ∧
    (m.currentThreadIsOwner tid = true → m.mLockLevel = 0 →
        ∃ msg, m.unlock tid = .error (.shlubluException msg)) := by
  refine ⟨fun h => ?_, fun h => ?_, fun h hl => ?_⟩
  · simp [MutexLock.unlock, h]
  · have : m.currentThreadIsOwner tid = false := by
      simp [MutexLock.currentThreadIsOwner, h]
    simp [MutexLock.unlock, this]
  · simp [MutexLock.unlock, h, MutexLock.lockLevel, hl]

/-- C10 witness: a free lock (level 0, no owner) rejects an unlock by
thread 1, and a lock owned by thread 2 at level 0 rejects thread 2's unlock. -/
theorem mutexlock_unlock_spec_witness :
    (∃ msg, MutexLock.unlock ⟨0, none⟩ 1 = .error (.shlubluException msg)) ∧
    (∃ msg, MutexLock.unlock ⟨0, some 2⟩ 2 = .error (.shlubluException msg)) := by
  exact ⟨(mutexlock_unlock_spec ⟨0, none⟩ 1).1 (by decide),
    (mutexlock_unlock_spec ⟨0, some 2⟩ 2).2.2 (by decide) rfl⟩

/-! ## Facade operation lemmas -/

theorem isRegistered_false_iff (c : ObjectHandlersCollection) (oh : ObjectHandler) :
    c.isRegistered oh = false ↔ ∀ x ∈ c.mObjects, x.mId ≠ oh.mId := by
  simp [ObjectHandlersCollection.isRegistered, List.any_eq_true]

/-- `__handleObjectUnregistration` with the keep flag: a plain `Py_INCREF`. -/
theorem handleObjectUnregistration_keep (st : Heap × ObjectHandlersCollection)
    (object : ObjectHandler) :
    Python.handleObjectUnregistration st object true =
      .ok (st.1.incref object.mPyObj, st.2) := rfl

/-- `__handleObjectUnregistration` without the keep flag on a registered
handle: the handle is unregistered, the heap untouched. -/
theorem handleObjectUnregistration_reg (st : Heap × ObjectHandlersCollection)
    (object : ObjectHandler) (h : st.2.isRegistered object = true) :
    Python.handleObjectUnregistration st object false = .ok (st.1, st.2.erase object) := by
  simp [Python.handleObjectUnregistration, h, ObjectHandlersCollection.unregisterObject,
    Except.map]

/-- Success path of `Python::forgetArgument`. -/
theorem forgetArgument_ok (s : PyState) (object : ObjectHandler)
    (hInit : Python.isInitialized s = true)
    (hreg : s.sObjects.isRegistered object = true)
    (hge : 1 ≤ s.heap.refcnt object.mPyObj) :
    Python.forgetArgument object s =
      (.ok (), { s with heap := s.heap.decRef object.mPyObj,
                        sObjects := s.sObjects.erase object }) := by
  have hnlt : ¬ s.heap.refcnt object.mPyObj < 1 := not_lt.2 hge
  simp [Python.forgetArgument, hInit, hreg, Python.decRefChecked, hnlt,
    ObjectHandlersCollection.unregisterObject]

/-- `Python::forgetArgument` on an unregistered handle: throw, no mutation. -/
theorem forgetArgument_notreg (s : PyState) (object : ObjectHandler)
    (hInit : Python.isInitialized s = true)
    (hreg : s.sObjects.isRegistered object = false) :
    Python.forgetArgument object s =
      (.error (.bindingException "Python::forgetArgument(): Trying to forget an object that is not under control"), s) := by
  simp [Python.forgetArgument, hInit, hreg]

/-- Success path of `Python::keepArgument`: increment, second handle with the
next sequence id, same pointer. -/
theorem keepArgument_ok (s : PyState) (object : ObjectHandler)
    (hInit : Python.isInitialized s = true)
    (hreg : s.sObjects.isRegistered object = true)
    (hseq : s.seq + 1 < 2 ^ 64)
    (hfresh : ∀ x ∈ s.sObjects.mObjects, x.mId ≠ s.seq + 1) :
    Python.keepArgument object s =
      (.ok ⟨object.mPyObj, s.seq + 1⟩,
       { s with heap := s.heap.incref object.mPyObj, seq := s.seq + 1,
                sObjects := ⟨⟨object.mPyObj, s.seq + 1⟩ :: s.sObjects.mObjects⟩ }) := by
  have hseqlit : s.seq + 1 < 18446744073709551616 := lt_of_lt_of_le hseq (by norm_num)
  have hmod : (s.seq + 1) % 18446744073709551616 = s.seq + 1 := Nat.mod_eq_of_lt hseqlit
  have hro := s.sObjects.registerObject_fresh ⟨object.mPyObj, s.seq + 1⟩
    (by intro x hx; exact hfresh x hx)
  simp [Python.keepArgument, hInit, hreg, ObjectHandler.fromPtr,
    ObjectHandler.nextId, hmod, hro]

/-- C3 counterexample: in `sampleInit` the handle `⟨1, 1⟩` has foreign count
c = 2; `keepArgument` then `forgetArgument` on each of the two handles
succeeds and leaves the count at 1 = c - 1, not at c. (The repository's own
test `keepAndForgetArgumentWorks` asserts exactly this `refCount - 1`
outcome.) -/
theorem keep_forget_refcount_counterexample :
    (Python.keepArgument ⟨1, 1⟩ sampleInit).1.toOption = some ⟨1, 6⟩ ∧
    (Python.forgetArgument ⟨1, 1⟩ (Python.keepArgument ⟨1, 1⟩ sampleInit).2).1.toOption = some () ∧
    (Python.forgetArgument ⟨1, 6⟩
      (Python.forgetArgument ⟨1, 1⟩ (Python.keepArgument ⟨1, 1⟩ sampleInit).2).2).1.toOption = some () ∧
    sampleInit.heap.refcnt 1 = 2 ∧
    ((Python.forgetArgument ⟨1, 6⟩
      (Python.forgetArgument ⟨1, 1⟩ (Python.keepArgument ⟨1, 1⟩ sampleInit).2).2).2).heap.refcnt 1 = 1 := by
  decide

/-- C3 amended: for a registered handle `h` with foreign count c ≥ 1,
`keepArgument(h)` (which fails unless `h` is registered) increments the count
to c + 1 and registers a second handle with a fresh id for the same pointer;
`forgetArgument` on each of the two handles then succeeds and leaves the
count at c - 1 (one below its pre-`keepArgument` value, not at c as the
claim put it), and a third `forgetArgument` on either handle fails, mutating
nothing. -/
theorem keepArgument_forget_twice (s : PyState) (h : ObjectHandler)
    (hInit : Python.isInitialized s = true)
    (hreg : s.sObjects.isRegistered h = true)
    (hids : ∀ x ∈ s.sObjects.mObjects, x.mId ≤ s.seq)
    (hseq : s.seq + 1 < 2 ^ 64)
    (hge : 1 ≤ s.heap.refcnt h.mPyObj) :
    ∃ nh s1 s2 s3,
      Python.keepArgument h s = (.ok nh, s1) ∧
      nh.mPyObj = h.mPyObj ∧ nh.mId = s.seq + 1 ∧ ¬ nh.mId = h.mId ∧
      s1.heap.refcnt h.mPyObj = s.heap.refcnt h.mPyObj + 1 ∧
      s1.sObjects.isRegistered nh = true ∧ s1.sObjects.isRegistered h = true ∧
      Python.forgetArgument h s1 = (.ok (), s2) ∧
      Python.forgetArgument nh s2 = (.ok (), s3) ∧
      s3.heap.refcnt h.mPyObj = s.heap.refcnt h.mPyObj - 1 ∧
      (∃ m, Python.forgetArgument h s3 = (.error (.bindingException m), s3)) ∧
      (∃ m, Python.forgetArgument nh s3 = (.error (.bindingException m), s3)) := by
  obtain ⟨o, ho, hco⟩ := s.heap.refcnt_pos_find? h.mPyObj hge
  have hmid : h.mId ≤ s.seq := by
    obtain ⟨x, hx, hxid⟩ := (s.sObjects.isRegistered_iff h).1 hreg
    exact hxid ▸ hids x hx
  have hfresh : ∀ x ∈ s.sObjects.mObjects, x.mId ≠ s.seq + 1 := by
    intro x hx
    have := hids x hx
    omega
  set nh : ObjectHandler := ⟨h.mPyObj, s.seq + 1⟩ with hnh
  set s1 : PyState := { s with heap := s.heap.incref h.mPyObj, seq := s.seq + 1, sObjects := ⟨nh :: s.sObjects.mObjects⟩ } with hs1
  have hk := keepArgument_ok s h hInit hreg hseq hfresh
  have h1rc : s1.heap.refcnt h.mPyObj = s.heap.refcnt h.mPyObj + 1 := by
    show (s.heap.incref h.mPyObj).refcnt h.mPyObj = _
    rw [s.heap.incref_refcnt_self h.mPyObj o ho, hco]
  have h1regnh : s1.sObjects.isRegistered nh = true := by
    simp [ObjectHandlersCollection.isRegistered]
  have h1regh : s1.sObjects.isRegistered h = true := by
    obtain ⟨x, hx, hxid⟩ := (s.sObjects.isRegistered_iff h).1 hreg
    exact (ObjectHandlersCollection.isRegistered_iff _ h).2 ⟨x, by simp [hs1, hx], hxid⟩
  have hnne : ¬ nh.mId = h.mId := by
    show ¬ s.seq + 1 = h.mId
    omega
  have hf1 := forgetArgument_ok s1 h (by simpa [hs1, Python.isInitialized] using hInit)
    h1regh (by rw [h1rc]; omega)
  set s2 : PyState := { s1 with heap := s1.heap.decRef h.mPyObj, sObjects := s1.sObjects.erase h } with hs2
  have h2rc : s2.heap.refcnt h.mPyObj = s.heap.refcnt h.mPyObj := by
    show (s1.heap.decRef h.mPyObj).refcnt h.mPyObj = _
    rw [s1.heap.decRef_refcnt_self h.mPyObj (by rw [h1rc]; omega), h1rc]
    omega
  have h2regnh : s2.sObjects.isRegistered nh = true := by
    refine (ObjectHandlersCollection.isRegistered_iff _ nh).2 ⟨nh, ?_, rfl⟩
    exact s1.sObjects.mem_erase_of_ne h nh (by simp [hs1]) hnne
  have hf2 := forgetArgument_ok s2 nh (by simpa [hs2, hs1, Python.isInitialized] using hInit)
    h2regnh (by rw [show nh.mPyObj = h.mPyObj from rfl, h2rc]; omega)
  set s3 : PyState := { s2 with heap := s2.heap.decRef nh.mPyObj, sObjects := s2.sObjects.erase nh } with hs3
  have h3rc : s3.heap.refcnt h.mPyObj = s.heap.refcnt h.mPyObj - 1 := by
    show (s2.heap.decRef nh.mPyObj).refcnt h.mPyObj = _
    rw [show nh.mPyObj = h.mPyObj from rfl,
      s2.heap.decRef_refcnt_self h.mPyObj (by rw [h2rc]; omega), h2rc]
  have h3mem : ∀ x ∈ s3.sObjects.mObjects, x.mId ≠ h.mId ∧ x.mId ≠ nh.mId := by
    intro x hx
    have hx2 : x ∈ s2.sObjects.mObjects ∧ ¬ x.mId = nh.mId := by
      have hsplit := List.mem_filter.1 hx
      exact ⟨hsplit.1, by simpa using hsplit.2⟩
    have hx1 : x ∈ s1.sObjects.mObjects ∧ ¬ x.mId = h.mId := by
      have hsplit := List.mem_filter.1 hx2.1
      exact ⟨hsplit.1, by simpa using hsplit.2⟩
    exact ⟨hx1.2, hx2.2⟩
  have h3regh : s3.sObjects.isRegistered h = false :=
    (isRegistered_false_iff _ h).2 (fun x hx => (h3mem x hx).1)
  have h3regnh : s3.sObjects.isRegistered nh = false :=
    (isRegistered_false_iff _ nh).2 (fun x hx => (h3mem x hx).2)
  have hInit3 : Python.isInitialized s3 = true := by
    simpa [hs3, hs2, hs1, Python.isInitialized] using hInit
  refine ⟨nh, s1, s2, s3, hk, rfl, rfl, hnne, h1rc, h1regnh, h1regh, hf1, hf2, h3rc,
    ⟨_, forgetArgument_notreg s3 h hInit3 h3regh⟩,
    ⟨_, forgetArgument_notreg s3 nh hInit3 h3regnh⟩⟩

/-- C3 amended witness: the amended statement applied to `sampleInit` and
its registered handle `⟨1, 1⟩` (count 2, sequence 5). -/
theorem keepArgument_forget_twice_witness :
    Python.isInitialized sampleInit = true ∧
    sampleInit.sObjects.isRegistered ⟨1, 1⟩ = true ∧
    (∃ nh s1 s2 s3,
      Python.keepArgument ⟨1, 1⟩ sampleInit = (.ok nh, s1) ∧
      nh.mPyObj = (⟨1, 1⟩ : ObjectHandler).mPyObj ∧ nh.mId = sampleInit.seq + 1 ∧
      ¬ nh.mId = (⟨1, 1⟩ : ObjectHandler).mId ∧
      s1.heap.refcnt 1 = sampleInit.heap.refcnt 1 + 1 ∧
      s1.sObjects.isRegistered nh = true ∧ s1.sObjects.isRegistered ⟨1, 1⟩ = true ∧
      Python.forgetArgument ⟨1, 1⟩ s1 = (.ok (), s2) ∧
      Python.forgetArgument nh s2 = (.ok (), s3) ∧
      s3.heap.refcnt 1 = sampleInit.heap.refcnt 1 - 1 ∧
      (∃ m, Python.forgetArgument ⟨1, 1⟩ s3 = (.error (.bindingException m), s3)) ∧
      (∃ m, Python.forgetArgument nh s3 = (.error (.bindingException m), s3))) := by
  refine ⟨by decide, by decide, ?_⟩
  exact keepArgument_forget_twice sampleInit ⟨1, 1⟩ (by decide) (by decide)
    (by decide) (by decide) (by decide)

/-- C2: with `h` registered and its foreign count at least 1,
`forgetArgument(h)` decrements that count by exactly one and removes `h`'s
id from the registry (other entries survive); it throws when `h` is not
registered, and throws when the count is already non-positive (defensive
double-free detection); in both failure cases the returned state is the
input state — registry and counts unchanged. The thrown `BindingException`
is the spec's usage/logic error for this operation. -/
theorem forgetArgument_spec (s : PyState) (h : ObjectHandler)
    (hInit : Python.isInitialized s = true) :
    (s.sObjects.isRegistered h = true → 1 ≤ s.heap.refcnt h.mPyObj →
      ∃ s', Python.forgetArgument h s = (.ok (), s') ∧
        s'.heap.refcnt h.mPyObj = s.heap.refcnt h.mPyObj - 1 ∧
        s'.sObjects.isRegistered h = false ∧
        (∀ x ∈ s.sObjects.mObjects, x.mId ≠ h.mId → x ∈ s'.sObjects.mObjects)) ∧
    (s.sObjects.isRegistered h = false →
      ∃ m, Python.forgetArgument h s = (.error (.bindingException m), s)) ∧
    (s.sObjects.isRegistered h = true → s.heap.refcnt h.mPyObj < 1 →
      ∃ m, Python.forgetArgument h s = (.error (.bindingException m), s)) := by
  refine ⟨fun hreg hge => ?_,
    fun hreg => ⟨_, forgetArgument_notreg s h hInit hreg⟩, fun hreg hlt => ?_⟩
  · refine ⟨_, forgetArgument_ok s h hInit hreg hge, ?_, ?_, ?_⟩
    · exact s.heap.decRef_refcnt_self h.mPyObj hge
    · exact s.sObjects.isRegistered_erase_self h
    · intro x hx hne
      exact s.sObjects.mem_erase_of_ne h x hx hne
  · exact ⟨"Python::__DecRef(): references count is already non-positive",
      by simp [Python.forgetArgument, hInit, hreg, Python.decRefChecked, hlt]⟩

/-- C2 witness: success on `sampleInit` (count 2 → 1, registry emptied);
throw-and-no-change for an unregistered handle and for the registered
zero-count handle of `sampleZero`. -/
theorem forgetArgument_spec_witness :
    (∃ s', Python.forgetArgument ⟨1, 1⟩ sampleInit = (.ok (), s') ∧
      s'.heap.refcnt 1 = sampleInit.heap.refcnt 1 - 1 ∧
      s'.sObjects.isRegistered ⟨1, 1⟩ = false ∧
      (∀ x ∈ sampleInit.sObjects.mObjects, x.mId ≠ 1 → x ∈ s'.sObjects.mObjects)) ∧
    (∃ m, Python.forgetArgument ⟨9, 9⟩ sampleInit = (.error (.bindingException m), sampleInit)) ∧
    (∃ m, Python.forgetArgument ⟨1, 1⟩ sampleZero = (.error (.bindingException m), sampleZero)) := by
  refine ⟨?_, ?_, ?_⟩
  · exact (forgetArgument_spec sampleInit ⟨1, 1⟩ (by decide)).1 (by decide) (by decide)
  · exact (forgetArgument_spec sampleInit ⟨9, 9⟩ (by decide)).2.1 (by decide)
  · exact (forgetArgument_spec sampleZero ⟨1, 1⟩ (by decide)).2.2 (by decide) (by decide)

/-- C7: for a handle `h` whose id is not in the registry,
`controlArgument(h)` inserts `h` itself and leaves every foreign reference
count unchanged; for an already-registered id it throws (the spec's
usage/logic error, a `BindingException`) and returns the input state — the
registry unchanged. -/
theorem controlArgument_spec (s : PyState) (h : ObjectHandler)
    (hInit : Python.isInitialized s = true) :
    (s.sObjects.isRegistered h = false →
      Python.controlArgument h s =
        (.ok h, { s with sObjects := ⟨h :: s.sObjects.mObjects⟩ }) ∧
      (⟨h :: s.sObjects.mObjects⟩ : ObjectHandlersCollection).isRegistered h = true ∧
      (∀ q, ({ s with sObjects := ⟨h :: s.sObjects.mObjects⟩ } : PyState).heap.refcnt q = s.heap.refcnt q)) ∧
    (s.sObjects.isRegistered h = true →
      ∃ m, Python.controlArgument h s = (.error (.bindingException m), s)) := by
  constructor
  · intro hreg
    have hfresh : ∀ x ∈ s.sObjects.mObjects, x.mId ≠ h.mId :=
      (isRegistered_false_iff _ h).1 hreg
    have hro := s.sObjects.registerObject_fresh h hfresh
    refine ⟨?_, ?_, fun q => rfl⟩
    · simp [Python.controlArgument, hInit, hreg, hro]
    · simp [ObjectHandlersCollection.isRegistered]
  · intro hreg
    exact ⟨"Python::controlArgument(): Trying to give control of an object that is already under control",
      by simp [Python.controlArgument, hInit, hreg]⟩

/-- C7 witness: adopting the unregistered handle `⟨7, 9⟩` into `sampleInit`
succeeds without touching counts; adopting the registered `⟨1, 1⟩` throws
with the state unchanged. -/
theorem controlArgument_spec_witness :
    (Python.controlArgument ⟨7, 9⟩ sampleInit =
      (.ok ⟨7, 9⟩, { sampleInit with sObjects := ⟨⟨7, 9⟩ :: sampleInit.sObjects.mObjects⟩ })) ∧
    (∃ m, Python.controlArgument ⟨1, 1⟩ sampleInit = (.error (.bindingException m), sampleInit)) := by
  exact ⟨((controlArgument_spec sampleInit ⟨7, 9⟩ (by decide)).1 (by decide)).1,
    (controlArgument_spec sampleInit ⟨1, 1⟩ (by decide)).2 (by decide)⟩

/-- C9: the consuming operations `tuple`, `list`, `addList` and `toAscii`
never throw on an argument handle that is not registered — the
unregistration step is silently skipped (`forgetArgument`, by contrast,
throws); and with their keep flag false, `addList` and `toAscii` still
`__decRef` such an unregistered argument: `toAscii` leaves its count one
lower, and `addList` leaves it unchanged — the append's own new reference
(+1) minus the decrement (-1) — where retaining (keep flag true) would
leave it one higher. -/
theorem consuming_ops_unregistered_spec (s : PyState) (objList item : ObjectHandler)
    (hInit : Python.isInitialized s = true)
    (hitem : s.sObjects.isRegistered item = false)
    (hids : ∀ x ∈ s.sObjects.mObjects, x.mId ≤ s.seq)
    (hitemid : item.mId ≤ s.seq)
    (hseq : s.seq + 1 < 2 ^ 64)
    (hnext : 0 < s.heap.next) :
    (∃ t, (Python.tuple [item] false s).1 = .ok t) ∧
    (Python.tuple [item] false s).2.sObjects.isRegistered item = false ∧
    (∃ t, (Python.list [item] false s).1 = .ok t) ∧
    (Python.list [item] false s).2.sObjects.isRegistered item = false ∧
    (s.heap.kindOf objList.mPyObj = PyKind.listK → (s.heap.find? item.mPyObj).isSome →
      0 ≤ s.heap.refcnt item.mPyObj →
      (Python.addList objList item false s).1 = .ok () ∧
      (Python.addList objList item false s).2.heap.refcnt item.mPyObj = s.heap.refcnt item.mPyObj ∧
      (Python.addList objList item true s).1 = .ok () ∧
      (Python.addList objList item true s).2.heap.refcnt item.mPyObj = s.heap.refcnt item.mPyObj + 1) ∧
    (∀ payload, s.heap.kindOf item.mPyObj = PyKind.strK payload →
      1 ≤ s.heap.refcnt item.mPyObj →
      (Python.toAscii item false s).1 = .ok payload ∧
      (Python.toAscii item false s).2.heap.refcnt item.mPyObj = s.heap.refcnt item.mPyObj - 1) := by
  have hseqlit : s.seq + 1 < 18446744073709551616 := lt_of_lt_of_le hseq (by norm_num)
  have hmod : (s.seq + 1) % 18446744073709551616 = s.seq + 1 := Nat.mod_eq_of_lt hseqlit
  have hp0 : ¬ s.heap.next = 0 := Nat.pos_iff_ne_zero.1 hnext
  have hfreshOld : ∀ x ∈ s.sObjects.mObjects, x.mId ≠ item.mId :=
    (isRegistered_false_iff _ item).1 hitem
  have hfreshNew : ∀ x ∈ s.sObjects.mObjects, x.mId ≠ s.seq + 1 := by
    intro x hx
    have := hids x hx
    omega
  have hro := s.sObjects.registerObject_fresh ⟨s.heap.next, s.seq + 1⟩ hfreshNew
  have hitem1 : (⟨(⟨s.heap.next, s.seq + 1⟩ : ObjectHandler) :: s.sObjects.mObjects⟩ :
      ObjectHandlersCollection).isRegistered item = false := by
    rw [isRegistered_false_iff]
    intro x hx
    rcases List.mem_cons.1 hx with hx | hx
    · rw [hx]
      show s.seq + 1 ≠ item.mId
      omega
    · exact hfreshOld x hx
  refine ⟨?_, ?_, ?_, ?_, fun hkind hsome h0le => ?_, fun payload hk h1le => ?_⟩
  · refine ⟨⟨s.heap.next, s.seq + 1⟩, ?_⟩
    simp [Python.tuple, Python.containerNew, Heap.alloc, ObjectHandler.fromPtr,
      ObjectHandler.nextId, hmod, hInit, hp0, hro, Python.fillContainer,
      Python.handleObjectUnregistration, hitem1]
  · simp [Python.tuple, Python.containerNew, Heap.alloc, ObjectHandler.fromPtr,
      ObjectHandler.nextId, hmod, hInit, hp0, hro, Python.fillContainer,
      Python.handleObjectUnregistration, hitem1]
  · refine ⟨⟨s.heap.next, s.seq + 1⟩, ?_⟩
    simp [Python.list, Python.containerNew, Heap.alloc, ObjectHandler.fromPtr,
      ObjectHandler.nextId, hmod, hInit, hp0, hro, Python.fillContainer,
      Python.handleObjectUnregistration, hitem1]
  · simp [Python.list, Python.containerNew, Heap.alloc, ObjectHandler.fromPtr,
      ObjectHandler.nextId, hmod, hInit, hp0, hro, Python.fillContainer,
      Python.handleObjectUnregistration, hitem1]
  · obtain ⟨o, ho⟩ := Option.isSome_iff_exists.1 hsome
    have hco : o.refcnt = s.heap.refcnt item.mPyObj := by simp [Heap.refcnt, ho]
    have happ : (s.heap.appendItem objList.mPyObj item.mPyObj).refcnt item.mPyObj =
        s.heap.refcnt item.mPyObj + 1 :=
      s.heap.appendItem_refcnt_self objList.mPyObj item.mPyObj hsome
    have happge : ¬ (s.heap.appendItem objList.mPyObj item.mPyObj).refcnt item.mPyObj < 1 := by
      rw [happ]
      omega
    have hrcI : (s.heap.incref item.mPyObj).refcnt item.mPyObj =
        s.heap.refcnt item.mPyObj + 1 := by
      rw [s.heap.incref_refcnt_self item.mPyObj o ho, hco]
    have hsomeI : ((s.heap.incref item.mPyObj).find? item.mPyObj).isSome := by
      rw [Heap.incref, Heap.find?_update, if_pos rfl, ho]
      rfl
    have happT : ((s.heap.incref item.mPyObj).appendItem objList.mPyObj item.mPyObj).refcnt
        item.mPyObj = s.heap.refcnt item.mPyObj + 2 := by
      rw [(s.heap.incref item.mPyObj).appendItem_refcnt_self objList.mPyObj item.mPyObj hsomeI,
        hrcI]
      ring
    have happTge : ¬ ((s.heap.incref item.mPyObj).appendItem objList.mPyObj
        item.mPyObj).refcnt item.mPyObj < 1 := by
      rw [happT]
      omega
    refine ⟨?_, ?_, ?_, ?_⟩
    · simp [Python.addList, hInit, hkind, Python.handleObjectUnregistration, hitem,
        Python.decRefChecked, happge]
    · rw [show (Python.addList objList item false s).2.heap =
        (s.heap.appendItem objList.mPyObj item.mPyObj).decRef item.mPyObj from by
          simp [Python.addList, hInit, hkind, Python.handleObjectUnregistration, hitem,
            Python.decRefChecked, happge]]
      rw [Heap.decRef_refcnt_self _ _ (by rw [happ]; omega), happ]
      ring
    · simp [Python.addList, hInit, hkind, Python.handleObjectUnregistration,
        Python.decRefChecked, happTge]
    · rw [show (Python.addList objList item true s).2.heap =
        ((s.heap.incref item.mPyObj).appendItem objList.mPyObj item.mPyObj).decRef
          item.mPyObj from by
          simp [Python.addList, hInit, hkind, Python.handleObjectUnregistration,
            Python.decRefChecked, happTge]]
      rw [Heap.decRef_refcnt_self _ _ (by rw [happT]; omega), happT]
      ring
  · have hnlt : ¬ s.heap.refcnt item.mPyObj < 1 := not_lt.2 h1le
    refine ⟨?_, ?_⟩
    · simp [Python.toAscii, hInit, hk, Python.handleObjectUnregistration, hitem,
        Python.decRefChecked, hnlt]
    · rw [show (Python.toAscii item false s).2.heap = s.heap.decRef item.mPyObj from by
        simp [Python.toAscii, hInit, hk, Python.handleObjectUnregistration, hitem,
          Python.decRefChecked, hnlt]]
      exact s.heap.decRef_refcnt_self item.mPyObj h1le

/-- C9 witness: in `sampleListStr` (nothing registered), building a tuple
from the unregistered string handle succeeds, `addList` succeeds with the
string's count unchanged net (append +1, decrement -1), and `toAscii`
succeeds leaving it one lower. -/
theorem consuming_ops_unregistered_spec_witness :
    (∃ t, (Python.tuple [⟨2, 4⟩] false sampleListStr).1 = .ok t) ∧
    (Python.addList ⟨1, 3⟩ ⟨2, 4⟩ false sampleListStr).1 = .ok () ∧
    (Python.addList ⟨1, 3⟩ ⟨2, 4⟩ false sampleListStr).2.heap.refcnt 2 =
      sampleListStr.heap.refcnt 2 ∧
    (Python.toAscii ⟨2, 4⟩ false sampleListStr).1 = .ok "ab" ∧
    (Python.toAscii ⟨2, 4⟩ false sampleListStr).2.heap.refcnt 2 =
      sampleListStr.heap.refcnt 2 - 1 := by
  have h := consuming_ops_unregistered_spec sampleListStr ⟨1, 3⟩ ⟨2, 4⟩
    (by decide) (by decide) (by decide) (by decide) (by decide) (by decide)
  have ha := h.2.2.2.2.1 (by decide) (by decide) (by decide)
  have ht := h.2.2.2.2.2 "ab" (by decide) (by decide)
  exact ⟨h.1, ha.1, ha.2.1, ht.1, ht.2⟩

/-- Two-element container construction and later release, shared by
`Python::tuple` and `Python::list` (`containerNew`): without retention the
two registered elements are unregistered and end one reference lower once
the container is forgotten; with retention they stay registered and end at
their original counts. -/
theorem containerNew_pair_retain (K : PyKind) (msg : String) (s : PyState)
    (a b : ObjectHandler) (oa ob : PyObj)
    (hInit : Python.isInitialized s = true)
    (hrega : s.sObjects.isRegistered a = true)
    (hregb : s.sObjects.isRegistered b = true)
    (hidne : a.mId ≠ b.mId)
    (hfa : s.heap.find? a.mPyObj = some oa)
    (hfb : s.heap.find? b.mPyObj = some ob)
    (hsca : oa.items = []) (hscb : ob.items = [])
    (hpne : a.mPyObj ≠ b.mPyObj)
    (hpa0 : a.mPyObj ≠ 0) (hpb0 : b.mPyObj ≠ 0)
    (hwf : ∀ e ∈ s.heap.mem, e.1 < s.heap.next)
    (hids : ∀ x ∈ s.sObjects.mObjects, x.mId ≤ s.seq)
    (hseq : s.seq + 1 < 2 ^ 64)
    (hnext : 0 < s.heap.next) :
    (∃ t s1 s2, Python.containerNew K msg [a, b] false s = (.ok t, s1) ∧
      s1.sObjects.isRegistered a = false ∧ s1.sObjects.isRegistered b = false ∧
      s1.sObjects.isRegistered t = true ∧
      Python.forgetArgument t s1 = (.ok (), s2) ∧
      s2.heap.refcnt a.mPyObj = s.heap.refcnt a.mPyObj - 1 ∧
      s2.heap.refcnt b.mPyObj = s.heap.refcnt b.mPyObj - 1) ∧
    (∃ t s1 s2, Python.containerNew K msg [a, b] true s = (.ok t, s1) ∧
      s1.sObjects.isRegistered a = true ∧ s1.sObjects.isRegistered b = true ∧
      Python.forgetArgument t s1 = (.ok (), s2) ∧
      s2.heap.refcnt a.mPyObj = s.heap.refcnt a.mPyObj ∧
      s2.heap.refcnt b.mPyObj = s.heap.refcnt b.mPyObj ∧
      s2.sObjects.isRegistered a = true ∧ s2.sObjects.isRegistered b = true) := by
  have hseqlit : s.seq + 1 < 18446744073709551616 := lt_of_lt_of_le hseq (by norm_num)
  have hmod : (s.seq + 1) % 18446744073709551616 = s.seq + 1 := Nat.mod_eq_of_lt hseqlit
  have hp0 : ¬ s.heap.next = 0 := Nat.pos_iff_ne_zero.1 hnext
  have haid : a.mId ≤ s.seq := by
    obtain ⟨x, hx, hxid⟩ := (s.sObjects.isRegistered_iff a).1 hrega
    exact hxid ▸ hids x hx
  have hbid : b.mId ≤ s.seq := by
    obtain ⟨x, hx, hxid⟩ := (s.sObjects.isRegistered_iff b).1 hregb
    exact hxid ▸ hids x hx
  have hfreshNew : ∀ x ∈ s.sObjects.mObjects, x.mId ≠ s.seq + 1 := by
    intro x hx
    have := hids x hx
    omega
  have hro := s.sObjects.registerObject_fresh ⟨s.heap.next, s.seq + 1⟩ hfreshNew
  have halt : a.mPyObj < s.heap.next := hwf _ (s.heap.mem_of_find? _ _ hfa)
  have hblt : b.mPyObj < s.heap.next := hwf _ (s.heap.mem_of_find? _ _ hfb)
  have haP : ¬ a.mPyObj = s.heap.next := ne_of_lt halt
  have hbP : ¬ b.mPyObj = s.heap.next := ne_of_lt hblt
  have hca : s.heap.refcnt a.mPyObj = oa.refcnt := s.heap.refcnt_eq_of_find? _ _ hfa
  have hcb : s.heap.refcnt b.mPyObj = ob.refcnt := s.heap.refcnt_eq_of_find? _ _ hfb
  have hra1 : (⟨(⟨s.heap.next, s.seq + 1⟩ : ObjectHandler) :: s.sObjects.mObjects⟩ :
      ObjectHandlersCollection).isRegistered a = true := by
    obtain ⟨x, hx, hxid⟩ := (s.sObjects.isRegistered_iff a).1 hrega
    exact (ObjectHandlersCollection.isRegistered_iff _ a).2 ⟨x, List.mem_cons_of_mem _ hx, hxid⟩
  have hrb1 : (⟨(⟨s.heap.next, s.seq + 1⟩ : ObjectHandler) :: s.sObjects.mObjects⟩ :
      ObjectHandlersCollection).isRegistered b = true := by
    obtain ⟨x, hx, hxid⟩ := (s.sObjects.isRegistered_iff b).1 hregb
    exact (ObjectHandlersCollection.isRegistered_iff _ b).2 ⟨x, List.mem_cons_of_mem _ hx, hxid⟩
  have hrb2 : ((⟨(⟨s.heap.next, s.seq + 1⟩ : ObjectHandler) :: s.sObjects.mObjects⟩ :
      ObjectHandlersCollection).erase a).isRegistered b = true := by
    obtain ⟨x, hx, hxid⟩ := (ObjectHandlersCollection.isRegistered_iff _ b).1 hrb1
    refine (ObjectHandlersCollection.isRegistered_iff _ b).2 ⟨x, ?_, hxid⟩
    exact ObjectHandlersCollection.mem_erase_of_ne _ a x hx
      (by rw [hxid]; exact fun hh => hidne hh.symm)
  -- the container pointer entry reached through the keep-false heap updates
  have hAHP : (⟨(s.heap.next, (⟨1, List.replicate 2 0, K⟩ : PyObj)) :: s.heap.mem,
      s.heap.next + 1⟩ : Heap).find? s.heap.next = some ⟨1, List.replicate 2 0, K⟩ :=
    Heap.find?_cons_self _ _ _ _
  have hAHa : (⟨(s.heap.next, (⟨1, List.replicate 2 0, K⟩ : PyObj)) :: s.heap.mem,
      s.heap.next + 1⟩ : Heap).find? a.mPyObj = some oa := by
    rw [Heap.find?_cons_ne _ _ _ _ _ _ haP]
    exact hfa
  have hAHb : (⟨(s.heap.next, (⟨1, List.replicate 2 0, K⟩ : PyObj)) :: s.heap.mem,
      s.heap.next + 1⟩ : Heap).find? b.mPyObj = some ob := by
    rw [Heap.find?_cons_ne _ _ _ _ _ _ hbP]
    exact hfb
  constructor
  · -- keep = false
    have hreg1 : Python.handleObjectUnregistration
        (⟨(s.heap.next, ⟨1, List.replicate 2 0, K⟩) :: s.heap.mem, s.heap.next + 1⟩,
         ⟨(⟨s.heap.next, s.seq + 1⟩ : ObjectHandler) :: s.sObjects.mObjects⟩) a false =
        .ok (⟨(s.heap.next, ⟨1, List.replicate 2 0, K⟩) :: s.heap.mem, s.heap.next + 1⟩,
          (⟨(⟨s.heap.next, s.seq + 1⟩ : ObjectHandler) :: s.sObjects.mObjects⟩ :
            ObjectHandlersCollection).erase a) :=
      handleObjectUnregistration_reg _ a hra1
    have hreg2 : Python.handleObjectUnregistration
        ((⟨(s.heap.next, ⟨1, List.replicate 2 0, K⟩) :: s.heap.mem, s.heap.next + 1⟩ :
            Heap).setItem s.heap.next 0 a.mPyObj,
         (⟨(⟨s.heap.next, s.seq + 1⟩ : ObjectHandler) :: s.sObjects.mObjects⟩ :
            ObjectHandlersCollection).erase a) b false =
        .ok ((⟨(s.heap.next, ⟨1, List.replicate 2 0, K⟩) :: s.heap.mem, s.heap.next + 1⟩ :
            Heap).setItem s.heap.next 0 a.mPyObj,
          ((⟨(⟨s.heap.next, s.seq + 1⟩ : ObjectHandler) :: s.sObjects.mObjects⟩ :
            ObjectHandlersCollection).erase a).erase b) :=
      handleObjectUnregistration_reg _ b hrb2
    have htupF : Python.containerNew K msg [a, b] false s =
        (.ok ⟨s.heap.next, s.seq + 1⟩,
         { s with
            heap := ((⟨(s.heap.next, ⟨1, List.replicate 2 0, K⟩) :: s.heap.mem, s.heap.next + 1⟩ : Heap).setItem s.heap.next 0 a.mPyObj).setItem s.heap.next 1 b.mPyObj,
            seq := s.seq + 1,
            sObjects := ((⟨(⟨s.heap.next, s.seq + 1⟩ : ObjectHandler) :: s.sObjects.mObjects⟩ : ObjectHandlersCollection).erase a).erase b }) := by
      simp only [Python.containerNew, Heap.alloc, hInit, Bool.not_true, if_false, ite_false,
        ite_true, List.length_cons, List.length_nil, Nat.zero_add, ObjectHandler.fromPtr,
        ObjectHandler.nextId]
      norm_num [hmod, hro, Python.fillContainer, hreg1, hreg2, hp0]
    have hfindTF : (((⟨(s.heap.next, ⟨1, List.replicate 2 0, K⟩) :: s.heap.mem,
        s.heap.next + 1⟩ : Heap).setItem s.heap.next 0 a.mPyObj).setItem s.heap.next 1
        b.mPyObj).find? s.heap.next = some ⟨1, [a.mPyObj, b.mPyObj], K⟩ := by
      rw [Heap.setItem, Heap.find?_update, if_pos rfl, Heap.setItem, Heap.find?_update,
        if_pos rfl, hAHP]
      rfl
    have hregaF : (((⟨(⟨s.heap.next, s.seq + 1⟩ : ObjectHandler) :: s.sObjects.mObjects⟩ :
        ObjectHandlersCollection).erase a).erase b).isRegistered a = false := by
      rw [isRegistered_false_iff]
      intro x hx
      have h1 := List.mem_filter.1 hx
      have h2 := List.mem_filter.1 h1.1
      simpa using h2.2
    have hregbF : (((⟨(⟨s.heap.next, s.seq + 1⟩ : ObjectHandler) :: s.sObjects.mObjects⟩ :
        ObjectHandlersCollection).erase a).erase b).isRegistered b = false := by
      rw [isRegistered_false_iff]
      intro x hx
      have h1 := List.mem_filter.1 hx
      simpa using h1.2
    have hregTF : (((⟨(⟨s.heap.next, s.seq + 1⟩ : ObjectHandler) :: s.sObjects.mObjects⟩ :
        ObjectHandlersCollection).erase a).erase b).isRegistered
        ⟨s.heap.next, s.seq + 1⟩ = true := by
      refine (ObjectHandlersCollection.isRegistered_iff _ _).2
        ⟨⟨s.heap.next, s.seq + 1⟩, ?_, rfl⟩
      refine ObjectHandlersCollection.mem_erase_of_ne _ b _ ?_ ?_
      · exact ObjectHandlersCollection.mem_erase_of_ne _ a _ (by simp)
          (by show s.seq + 1 ≠ a.mId; omega)
      · show s.seq + 1 ≠ b.mId
        omega
    have hrcT : (((⟨(s.heap.next, ⟨1, List.replicate 2 0, K⟩) :: s.heap.mem,
        s.heap.next + 1⟩ : Heap).setItem s.heap.next 0 a.mPyObj).setItem s.heap.next 1
        b.mPyObj).refcnt s.heap.next = (1 : Int) :=
      Heap.refcnt_eq_of_find? _ _ _ hfindTF
    have hf2 := forgetArgument_ok
      { s with
          heap := ((⟨(s.heap.next, ⟨1, List.replicate 2 0, K⟩) :: s.heap.mem, s.heap.next + 1⟩ : Heap).setItem s.heap.next 0 a.mPyObj).setItem s.heap.next 1 b.mPyObj,
          seq := s.seq + 1,
          sObjects := ((⟨(⟨s.heap.next, s.seq + 1⟩ : ObjectHandler) :: s.sObjects.mObjects⟩ : ObjectHandlersCollection).erase a).erase b }
      ⟨s.heap.next, s.seq + 1⟩ hInit hregTF (le_of_eq hrcT.symm)
    have hz : ((⟨1, [a.mPyObj, b.mPyObj], K⟩ : PyObj)).refcnt - 1 = 0 := by norm_num
    have hdeal := Heap.decRef_eq_dealloc _ s.heap.next _ hfindTF hz
    have hfilt : [a.mPyObj, b.mPyObj].filter (fun q => ¬ q = 0) = [a.mPyObj, b.mPyObj] := by
      simp [hpa0, hpb0]
    have hlen : (((⟨(s.heap.next, ⟨1, List.replicate 2 0, K⟩) :: s.heap.mem,
        s.heap.next + 1⟩ : Heap).setItem s.heap.next 0 a.mPyObj).setItem s.heap.next 1
        b.mPyObj).mem.length = s.heap.mem.length + 1 := by
      simp [Heap.setItem, Heap.update]
    have hdeal2 : (((⟨(s.heap.next, ⟨1, List.replicate 2 0, K⟩) :: s.heap.mem,
        s.heap.next + 1⟩ : Heap).setItem s.heap.next 0 a.mPyObj).setItem s.heap.next 1
        b.mPyObj).decRef s.heap.next =
        Heap.decRefCore (s.heap.mem.length + 1) b.mPyObj
          (Heap.decRefCore (s.heap.mem.length + 1) a.mPyObj
            ((((⟨(s.heap.next, ⟨1, List.replicate 2 0, K⟩) :: s.heap.mem,
              s.heap.next + 1⟩ : Heap).setItem s.heap.next 0 a.mPyObj).setItem s.heap.next 1
              b.mPyObj).remove s.heap.next)) := by
      rw [hdeal, hfilt, hlen, List.foldl_cons, List.foldl_cons, List.foldl_nil]
    have hremA : ((((⟨(s.heap.next, ⟨1, List.replicate 2 0, K⟩) :: s.heap.mem,
        s.heap.next + 1⟩ : Heap).setItem s.heap.next 0 a.mPyObj).setItem s.heap.next 1
        b.mPyObj).remove s.heap.next).find? a.mPyObj = some oa := by
      rw [Heap.find?_remove, if_neg haP, Heap.setItem, Heap.find?_update, if_neg haP,
        Heap.setItem, Heap.find?_update, if_neg haP]
      exact hAHa
    have hremB : ((((⟨(s.heap.next, ⟨1, List.replicate 2 0, K⟩) :: s.heap.mem,
        s.heap.next + 1⟩ : Heap).setItem s.heap.next 0 a.mPyObj).setItem s.heap.next 1
        b.mPyObj).remove s.heap.next).find? b.mPyObj = some ob := by
      rw [Heap.find?_remove, if_neg hbP, Heap.setItem, Heap.find?_update, if_neg hbP,
        Heap.setItem, Heap.find?_update, if_neg hbP]
      exact hAHb
    have hstepA := Heap.decRefCore_scalar_step s.heap.mem.length _ a.mPyObj oa hremA hsca
    have hfbA := (hstepA.2 b.mPyObj (fun hh => hpne hh.symm)).trans hremB
    have hstepB := Heap.decRefCore_scalar_step s.heap.mem.length _ b.mPyObj ob hfbA hscb
    refine ⟨⟨s.heap.next, s.seq + 1⟩, _, _, htupF, hregaF, hregbF, hregTF, hf2, ?_, ?_⟩
    · dsimp only
      rw [hdeal2]
      rw [Heap.refcnt_congr _ _ a.mPyObj (hstepB.2 a.mPyObj hpne), hstepA.1, hca]
    · dsimp only
      rw [hdeal2, hstepB.1, hcb]
  · -- keep = true
    have hPa : ¬ s.heap.next = a.mPyObj := fun hh => haP hh.symm
    have hPb : ¬ s.heap.next = b.mPyObj := fun hh => hbP hh.symm
    have hba : ¬ b.mPyObj = a.mPyObj := fun hh => hpne hh.symm
    have htupT : Python.containerNew K msg [a, b] true s =
        (.ok ⟨s.heap.next, s.seq + 1⟩,
         { s with
            heap := ((((⟨(s.heap.next, ⟨1, List.replicate 2 0, K⟩) :: s.heap.mem, s.heap.next + 1⟩ : Heap).incref a.mPyObj).setItem s.heap.next 0 a.mPyObj).incref b.mPyObj).setItem s.heap.next 1 b.mPyObj,
            seq := s.seq + 1,
            sObjects := ⟨(⟨s.heap.next, s.seq + 1⟩ : ObjectHandler) :: s.sObjects.mObjects⟩ }) := by
      simp only [Python.containerNew, Heap.alloc, hInit, Bool.not_true, if_false, ite_false,
        ite_true, List.length_cons, List.length_nil, Nat.zero_add, ObjectHandler.fromPtr,
        ObjectHandler.nextId]
      norm_num [hmod, hro, Python.fillContainer, handleObjectUnregistration_keep, hp0]
    have hfindTT : (((((⟨(s.heap.next, ⟨1, List.replicate 2 0, K⟩) :: s.heap.mem,
        s.heap.next + 1⟩ : Heap).incref a.mPyObj).setItem s.heap.next 0
        a.mPyObj).incref b.mPyObj).setItem s.heap.next 1 b.mPyObj).find? s.heap.next =
        some ⟨1, [a.mPyObj, b.mPyObj], K⟩ := by
      rw [Heap.setItem, Heap.find?_update, if_pos rfl, Heap.incref, Heap.find?_update,
        if_neg hPb, Heap.setItem, Heap.find?_update, if_pos rfl, Heap.incref,
        Heap.find?_update, if_neg hPa, hAHP]
      rfl
    have hrcTT : (((((⟨(s.heap.next, ⟨1, List.replicate 2 0, K⟩) :: s.heap.mem,
        s.heap.next + 1⟩ : Heap).incref a.mPyObj).setItem s.heap.next 0
        a.mPyObj).incref b.mPyObj).setItem s.heap.next 1 b.mPyObj).refcnt s.heap.next =
        (1 : Int) :=
      Heap.refcnt_eq_of_find? _ _ _ hfindTT
    have hregT1 : (⟨(⟨s.heap.next, s.seq + 1⟩ : ObjectHandler) :: s.sObjects.mObjects⟩ :
        ObjectHandlersCollection).isRegistered ⟨s.heap.next, s.seq + 1⟩ = true := by
      simp [ObjectHandlersCollection.isRegistered]
    have hregaE : ((⟨(⟨s.heap.next, s.seq + 1⟩ : ObjectHandler) :: s.sObjects.mObjects⟩ :
        ObjectHandlersCollection).erase ⟨s.heap.next, s.seq + 1⟩).isRegistered a = true := by
      obtain ⟨x, hx, hxid⟩ := (s.sObjects.isRegistered_iff a).1 hrega
      refine (ObjectHandlersCollection.isRegistered_iff _ a).2 ⟨x, ?_, hxid⟩
      refine ObjectHandlersCollection.mem_erase_of_ne _ _ x (List.mem_cons_of_mem _ hx) ?_
      rw [hxid]
      show a.mId ≠ s.seq + 1
      omega
    have hregbE : ((⟨(⟨s.heap.next, s.seq + 1⟩ : ObjectHandler) :: s.sObjects.mObjects⟩ :
        ObjectHandlersCollection).erase ⟨s.heap.next, s.seq + 1⟩).isRegistered b = true := by
      obtain ⟨x, hx, hxid⟩ := (s.sObjects.isRegistered_iff b).1 hregb
      refine (ObjectHandlersCollection.isRegistered_iff _ b).2 ⟨x, ?_, hxid⟩
      refine ObjectHandlersCollection.mem_erase_of_ne _ _ x (List.mem_cons_of_mem _ hx) ?_
      rw [hxid]
      show b.mId ≠ s.seq + 1
      omega
    have hf2T := forgetArgument_ok
      { s with
          heap := ((((⟨(s.heap.next, ⟨1, List.replicate 2 0, K⟩) :: s.heap.mem, s.heap.next + 1⟩ : Heap).incref a.mPyObj).setItem s.heap.next 0 a.mPyObj).incref b.mPyObj).setItem s.heap.next 1 b.mPyObj,
          seq := s.seq + 1,
          sObjects := ⟨(⟨s.heap.next, s.seq + 1⟩ : ObjectHandler) :: s.sObjects.mObjects⟩ }
      ⟨s.heap.next, s.seq + 1⟩ hInit hregT1 (le_of_eq hrcTT.symm)
    have hzT : ((⟨1, [a.mPyObj, b.mPyObj], K⟩ : PyObj)).refcnt - 1 = 0 := by norm_num
    have hdealT := Heap.decRef_eq_dealloc _ s.heap.next _ hfindTT hzT
    have hfiltT : [a.mPyObj, b.mPyObj].filter (fun q => ¬ q = 0) = [a.mPyObj, b.mPyObj] := by
      simp [hpa0, hpb0]
    have hlenT : (((((⟨(s.heap.next, ⟨1, List.replicate 2 0, K⟩) :: s.heap.mem,
        s.heap.next + 1⟩ : Heap).incref a.mPyObj).setItem s.heap.next 0
        a.mPyObj).incref b.mPyObj).setItem s.heap.next 1 b.mPyObj).mem.length =
        s.heap.mem.length + 1 := by
      simp [Heap.setItem, Heap.incref, Heap.update]
    have hdealT2 : (((((⟨(s.heap.next, ⟨1, List.replicate 2 0, K⟩) :: s.heap.mem,
        s.heap.next + 1⟩ : Heap).incref a.mPyObj).setItem s.heap.next 0
        a.mPyObj).incref b.mPyObj).setItem s.heap.next 1 b.mPyObj).decRef s.heap.next =
        Heap.decRefCore (s.heap.mem.length + 1) b.mPyObj
          (Heap.decRefCore (s.heap.mem.length + 1) a.mPyObj
            ((((((⟨(s.heap.next, ⟨1, List.replicate 2 0, K⟩) :: s.heap.mem,
              s.heap.next + 1⟩ : Heap).incref a.mPyObj).setItem s.heap.next 0
              a.mPyObj).incref b.mPyObj).setItem s.heap.next 1 b.mPyObj).remove
              s.heap.next)) := by
      rw [hdealT, hfiltT, hlenT, List.foldl_cons, List.foldl_cons, List.foldl_nil]
    have hremAT : ((((((⟨(s.heap.next, ⟨1, List.replicate 2 0, K⟩) :: s.heap.mem,
        s.heap.next + 1⟩ : Heap).incref a.mPyObj).setItem s.heap.next 0
        a.mPyObj).incref b.mPyObj).setItem s.heap.next 1 b.mPyObj).remove
        s.heap.next).find? a.mPyObj = some { oa with refcnt := oa.refcnt + 1 } := by
      rw [Heap.find?_remove, if_neg haP, Heap.setItem, Heap.find?_update, if_neg haP,
        Heap.incref, Heap.find?_update, if_neg hpne, Heap.setItem, Heap.find?_update,
        if_neg haP, Heap.incref, Heap.find?_update, if_pos rfl, hAHa]
      rfl
    have hremBT : ((((((⟨(s.heap.next, ⟨1, List.replicate 2 0, K⟩) :: s.heap.mem,
        s.heap.next + 1⟩ : Heap).incref a.mPyObj).setItem s.heap.next 0
        a.mPyObj).incref b.mPyObj).setItem s.heap.next 1 b.mPyObj).remove
        s.heap.next).find? b.mPyObj = some { ob with refcnt := ob.refcnt + 1 } := by
      rw [Heap.find?_remove, if_neg hbP, Heap.setItem, Heap.find?_update, if_neg hbP,
        Heap.incref, Heap.find?_update, if_pos rfl, Heap.setItem, Heap.find?_update,
        if_neg hbP, Heap.incref, Heap.find?_update, if_neg hba, hAHb]
      rfl
    have hstepAT := Heap.decRefCore_scalar_step s.heap.mem.length _ a.mPyObj
      { oa with refcnt := oa.refcnt + 1 } hremAT hsca
    have hfbAT := (hstepAT.2 b.mPyObj (fun hh => hpne hh.symm)).trans hremBT
    have hstepBT := Heap.decRefCore_scalar_step s.heap.mem.length _ b.mPyObj
      { ob with refcnt := ob.refcnt + 1 } hfbAT hscb
    refine ⟨⟨s.heap.next, s.seq + 1⟩, _, _, htupT, hra1, hrb1, hf2T, ?_, ?_, hregaE, hregbE⟩
    · dsimp only
      rw [hdealT2]
      rw [Heap.refcnt_congr _ _ a.mPyObj (hstepBT.2 a.mPyObj hpne), hstepAT.1, hca]
      show oa.refcnt + 1 - 1 = oa.refcnt
      ring
    · dsimp only
      rw [hdealT2, hstepBT.1, hcb]
      show ob.refcnt + 1 - 1 = ob.refcnt
      ring

/-- C4: for registered element handles `a` and `b` over distinct live scalar
foreign objects, `tuple({a, b})` with the retain flag false unregisters `a`
and `b`, and once the tuple is later forgotten their foreign counts are each
one lower than before construction; with the retain flag true they remain
registered (also after the forget) and their counts return to the
pre-construction values; and the same discipline holds for `list`. -/
theorem tuple_list_retain_discipline (s : PyState) (a b : ObjectHandler) (oa ob : PyObj)
    (hInit : Python.isInitialized s = true)
    (hrega : s.sObjects.isRegistered a = true)
    (hregb : s.sObjects.isRegistered b = true)
    (hidne : a.mId ≠ b.mId)
    (hfa : s.heap.find? a.mPyObj = some oa)
    (hfb : s.heap.find? b.mPyObj = some ob)
    (hsca : oa.items = []) (hscb : ob.items = [])
    (hpne : a.mPyObj ≠ b.mPyObj)
    (hpa0 : a.mPyObj ≠ 0) (hpb0 : b.mPyObj ≠ 0)
    (hwf : ∀ e ∈ s.heap.mem, e.1 < s.heap.next)
    (hids : ∀ x ∈ s.sObjects.mObjects, x.mId ≤ s.seq)
    (hseq : s.seq + 1 < 2 ^ 64)
    (hnext : 0 < s.heap.next) :
    ((∃ t s1 s2, Python.tuple [a, b] false s = (.ok t, s1) ∧
      s1.sObjects.isRegistered a = false ∧ s1.sObjects.isRegistered b = false ∧
      s1.sObjects.isRegistered t = true ∧
      Python.forgetArgument t s1 = (.ok (), s2) ∧
      s2.heap.refcnt a.mPyObj = s.heap.refcnt a.mPyObj - 1 ∧
      s2.heap.refcnt b.mPyObj = s.heap.refcnt b.mPyObj - 1) ∧
    (∃ t s1 s2, Python.tuple [a, b] true s = (.ok t, s1) ∧
      s1.sObjects.isRegistered a = true ∧ s1.sObjects.isRegistered b = true ∧
      Python.forgetArgument t s1 = (.ok (), s2) ∧
      s2.heap.refcnt a.mPyObj = s.heap.refcnt a.mPyObj ∧
      s2.heap.refcnt b.mPyObj = s.heap.refcnt b.mPyObj ∧
      s2.sObjects.isRegistered a = true ∧ s2.sObjects.isRegistered b = true)) ∧
    ((∃ t s1 s2, Python.list [a, b] false s = (.ok t, s1) ∧
      s1.sObjects.isRegistered a = false ∧ s1.sObjects.isRegistered b = false ∧
      s1.sObjects.isRegistered t = true ∧
      Python.forgetArgument t s1 = (.ok (), s2) ∧
      s2.heap.refcnt a.mPyObj = s.heap.refcnt a.mPyObj - 1 ∧
      s2.heap.refcnt b.mPyObj = s.heap.refcnt b.mPyObj - 1) ∧
    (∃ t s1 s2, Python.list [a, b] true s = (.ok t, s1) ∧
      s1.sObjects.isRegistered a = true ∧ s1.sObjects.isRegistered b = true ∧
      Python.forgetArgument t s1 = (.ok (), s2) ∧
      s2.heap.refcnt a.mPyObj = s.heap.refcnt a.mPyObj ∧
      s2.heap.refcnt b.mPyObj = s.heap.refcnt b.mPyObj ∧
      s2.sObjects.isRegistered a = true ∧ s2.sObjects.isRegistered b = true)) := by
  exact ⟨containerNew_pair_retain PyKind.tupleK
      "Python::tuple(): failure in creating tuple" s a b oa ob hInit hrega hregb hidne
      hfa hfb hsca hscb hpne hpa0 hpb0 hwf hids hseq hnext,
    containerNew_pair_retain PyKind.listK
      "Python::list(): failure in creating list" s a b oa ob hInit hrega hregb hidne
      hfa hfb hsca hscb hpne hpa0 hpb0 hwf hids hseq hnext⟩

/-- C4 witness: in `samplePair` (handles `⟨1, 1⟩`, `⟨2, 2⟩` over scalars with
counts 2 and 3), building and forgetting the tuple without retention lowers
both counts by one; with retention both handles survive at their original
counts. -/
theorem tuple_list_retain_discipline_witness :
    (∃ t s1 s2, Python.tuple [⟨1, 1⟩, ⟨2, 2⟩] false samplePair = (.ok t, s1) ∧
      s1.sObjects.isRegistered ⟨1, 1⟩ = false ∧ s1.sObjects.isRegistered ⟨2, 2⟩ = false ∧
      s1.sObjects.isRegistered t = true ∧
      Python.forgetArgument t s1 = (.ok (), s2) ∧
      s2.heap.refcnt 1 = samplePair.heap.refcnt 1 - 1 ∧
      s2.heap.refcnt 2 = samplePair.heap.refcnt 2 - 1) ∧
    (∃ t s1 s2, Python.tuple [⟨1, 1⟩, ⟨2, 2⟩] true samplePair = (.ok t, s1) ∧
      s1.sObjects.isRegistered ⟨1, 1⟩ = true ∧ s1.sObjects.isRegistered ⟨2, 2⟩ = true ∧
      Python.forgetArgument t s1 = (.ok (), s2) ∧
      s2.heap.refcnt 1 = samplePair.heap.refcnt 1 ∧
      s2.heap.refcnt 2 = samplePair.heap.refcnt 2 ∧
      s2.sObjects.isRegistered ⟨1, 1⟩ = true ∧ s2.sObjects.isRegistered ⟨2, 2⟩ = true) ∧
    (∃ t s1 s2, Python.list [⟨1, 1⟩, ⟨2, 2⟩] false samplePair = (.ok t, s1) ∧
      s1.sObjects.isRegistered ⟨1, 1⟩ = false ∧ s1.sObjects.isRegistered ⟨2, 2⟩ = false ∧
      s1.sObjects.isRegistered t = true ∧
      Python.forgetArgument t s1 = (.ok (), s2) ∧
      s2.heap.refcnt 1 = samplePair.heap.refcnt 1 - 1 ∧
      s2.heap.refcnt 2 = samplePair.heap.refcnt 2 - 1) := by
  have h := tuple_list_retain_discipline samplePair ⟨1, 1⟩ ⟨2, 2⟩ ⟨2, [], .otherK⟩
    ⟨3, [], .otherK⟩ (by decide) (by decide) (by decide) (by decide) (by decide)
    (by decide) (by decide) (by decide) (by decide) (by decide) (by decide) (by decide)
    (by decide) (by decide) (by decide)
  exact ⟨h.1.1, h.1.2, h.2.1⟩

/-- The `tuple`/`list` element loop, in general: it never throws; it
preserves the container's count, the heap's allocation frontier and any
established non-reference fact for pointers outside the argument list; the
registry only loses entries; and an entry with an id different from every
argument's survives. -/
theorem fillContainer_total (tp : Ptr) (keep : Bool) (tid : Nat) :
    ∀ (args : List ObjectHandler) (h : Heap) (c : ObjectHandlersCollection) (pos : Nat),
    (∀ a ∈ args, a.mId ≠ tid) → (∀ a ∈ args, a.mPyObj ≠ tp) →
    (∃ x ∈ c.mObjects, x.mId = tid) →
    ∃ h' c' pos', Python.fillContainer tp keep args (h, c, pos) = (.ok (), (h', c', pos')) ∧
      h'.refcnt tp = h.refcnt tp ∧ h'.next = h.next ∧
      (∀ x ∈ c'.mObjects, x ∈ c.mObjects) ∧
      (∃ x ∈ c'.mObjects, x.mId = tid) ∧
      (∀ P, ¬ P = tp → Heap.NotAnItem h P → (∀ a ∈ args, a.mPyObj ≠ P) →
        Heap.NotAnItem h' P) := by
  intro args
  induction args with
  | nil =>
    intro h c pos _ _ htid
    exact ⟨h, c, pos, rfl, rfl, rfl, fun x hx => hx, htid, fun P _ hni _ => hni⟩
  | cons a tl ih =>
    intro h c pos hids hptrs htid
    have haptp : a.mPyObj ≠ tp := hptrs a (by simp)
    have haid : a.mId ≠ tid := hids a (by simp)
    have hstep : ∃ h1 c1, Python.handleObjectUnregistration (h, c) a keep = .ok (h1, c1) ∧
        h1.refcnt tp = h.refcnt tp ∧ h1.next = h.next ∧
        (∀ x ∈ c1.mObjects, x ∈ c.mObjects) ∧ (∃ x ∈ c1.mObjects, x.mId = tid) ∧
        (∀ P, Heap.NotAnItem h P → Heap.NotAnItem h1 P) := by
      cases keep with
      | true =>
        refine ⟨h.incref a.mPyObj, c, handleObjectUnregistration_keep (h, c) a, ?_, rfl,
          fun x hx => hx, htid, ?_⟩
        · exact h.refcnt_incref_ne a.mPyObj tp (fun hh => haptp hh.symm)
        · intro P hni
          exact h.notAnItem_update P a.mPyObj _ (fun o => rfl) hni
      | false =>
        by_cases hreg : c.isRegistered a
        · refine ⟨h, c.erase a, handleObjectUnregistration_reg (h, c) a hreg, rfl, rfl,
            ?_, ?_, fun P hni => hni⟩
          · intro x hx
            exact List.mem_of_mem_filter hx
          · obtain ⟨x, hx, hxid⟩ := htid
            refine ⟨x, ?_, hxid⟩
            exact c.mem_erase_of_ne a x hx (by rw [hxid]; exact fun hh => haid hh.symm)
        · refine ⟨h, c, ?_, rfl, rfl, fun x hx => hx, htid, fun P hni => hni⟩
          simp [Python.handleObjectUnregistration, hreg]
    obtain ⟨h1, c1, hsteq, hrc1, hn1, hsub1, htid1, hni1⟩ := hstep
    obtain ⟨h', c', pos', hfeq, hrc', hn', hsub', htid', hni'⟩ :=
      ih (h1.setItem tp pos a.mPyObj) c1 (pos + 1)
        (fun x hx => hids x (by simp [hx])) (fun x hx => hptrs x (by simp [hx])) htid1
    refine ⟨h', c', pos', ?_, ?_, ?_, fun x hx => hsub1 x (hsub' x hx), htid', ?_⟩
    · rw [Python.fillContainer, hsteq]
      exact hfeq
    · rw [hrc', Heap.refcnt_setItem, hrc1]
    · rw [hn', Heap.setItem, Heap.update]
      exact hn1
    · intro P hPtp hni hargsP
      refine hni' P hPtp ?_ (fun x hx => hargsP x (by simp [hx]))
      exact h1.notAnItem_setItem P tp pos a.mPyObj (hni1 P hni)
        (fun hh => (hargsP a (by simp)) hh)

/-- C1 part: the shared container body registers its fresh handle and a
subsequent `forgetArgument` unregisters it. -/
theorem containerNew_registers (K : PyKind) (msg : String) (s : PyState)
    (args : List ObjectHandler) (keep : Bool)
    (hInit : Python.isInitialized s = true)
    (hids : ∀ x ∈ s.sObjects.mObjects, x.mId ≤ s.seq)
    (hargsid : ∀ a ∈ args, a.mId ≤ s.seq)
    (hargsptr : ∀ a ∈ args, a.mPyObj < s.heap.next)
    (hseq : s.seq + 1 < 2 ^ 64)
    (hnext : 0 < s.heap.next) :
    ∃ t s1 s2, Python.containerNew K msg args keep s = (.ok t, s1) ∧
      s1.sObjects.isRegistered t = true ∧
      Python.forgetArgument t s1 = (.ok (), s2) ∧
      s2.sObjects.isRegistered t = false ∧
      s1.heap.next = s.heap.next + 1 ∧
      (∀ x ∈ s1.sObjects.mObjects, x ∈ (⟨s.heap.next, s.seq + 1⟩ : ObjectHandler) :: s.sObjects.mObjects) ∧
      (∀ P, ¬ P = s.heap.next →
        Heap.NotAnItem (⟨(s.heap.next, ⟨1, List.replicate args.length 0, K⟩) :: s.heap.mem, s.heap.next + 1⟩ : Heap) P →
        (∀ a ∈ args, a.mPyObj ≠ P) → Heap.NotAnItem s1.heap P) ∧
      s1.heap.refcnt s.heap.next = 1 ∧ s1.seq = s.seq + 1 ∧ t = ⟨s.heap.next, s.seq + 1⟩ ∧
      Python.isInitialized s1 = true := by
  have hseqlit : s.seq + 1 < 18446744073709551616 := lt_of_lt_of_le hseq (by norm_num)
  have hmod : (s.seq + 1) % 18446744073709551616 = s.seq + 1 := Nat.mod_eq_of_lt hseqlit
  have hp0 : ¬ s.heap.next = 0 := Nat.pos_iff_ne_zero.1 hnext
  have hfreshNew : ∀ x ∈ s.sObjects.mObjects, x.mId ≠ s.seq + 1 := by
    intro x hx
    have := hids x hx
    omega
  have hro := s.sObjects.registerObject_fresh ⟨s.heap.next, s.seq + 1⟩ hfreshNew
  obtain ⟨h', c', pos', hfeq, hrcT, hnT, hsubT, htidT, hniT⟩ :=
    fillContainer_total s.heap.next keep (s.seq + 1) args
      ⟨(s.heap.next, ⟨1, List.replicate args.length 0, K⟩) :: s.heap.mem, s.heap.next + 1⟩
      ⟨(⟨s.heap.next, s.seq + 1⟩ : ObjectHandler) :: s.sObjects.mObjects⟩ 0
      (fun a ha => by have := hargsid a ha; omega)
      (fun a ha => ne_of_lt (hargsptr a ha))
      ⟨⟨s.heap.next, s.seq + 1⟩, by simp, rfl⟩
  have htup : Python.containerNew K msg args keep s =
      (.ok ⟨s.heap.next, s.seq + 1⟩, { s with heap := h', seq := s.seq + 1, sObjects := c' }) := by
    simp only [Python.containerNew, Heap.alloc, hInit, Bool.not_true, if_false, ite_false,
      ite_true, ObjectHandler.fromPtr, ObjectHandler.nextId]
    norm_num [hmod, hro, hp0]
    rw [hfeq]
  have hrc1 : h'.refcnt s.heap.next = 1 := by
    rw [hrcT]
    exact Heap.refcnt_eq_of_find? _ _ _ (Heap.find?_cons_self _ _ _ _)
  have hregt : c'.isRegistered ⟨s.heap.next, s.seq + 1⟩ = true := by
    obtain ⟨x, hx, hxid⟩ := htidT
    exact (ObjectHandlersCollection.isRegistered_iff _ _).2 ⟨x, hx, hxid⟩
  have hforg := forgetArgument_ok { s with heap := h', seq := s.seq + 1, sObjects := c' }
    ⟨s.heap.next, s.seq + 1⟩ hInit hregt (le_of_eq hrc1.symm)
  refine ⟨⟨s.heap.next, s.seq + 1⟩, _, _, htup, hregt, hforg, ?_, ?_, hsubT, ?_, hrc1, rfl,
    rfl, hInit⟩
  · exact c'.isRegistered_erase_self _
  · show h'.next = s.heap.next + 1
    rw [hnT]
  · intro P hP hni hargsP
    exact hniT P hP hni hargsP

/-- C1: every handle returned by a producing facade operation (`object`,
`call`, `tuple`, `list`, `fromAscii`) is registered immediately after the
operation returns, and unregistered immediately after a subsequent
`forgetArgument` on it returns. -/
theorem producing_ops_register (s : PyState) (scope : Ptr) (objectName str : String)
    (args : List ObjectHandler) (keep : Bool)
    (hInit : Python.isInitialized s = true)
    (hids : ∀ x ∈ s.sObjects.mObjects, x.mId ≤ s.seq)
    (hargsid : ∀ a ∈ args, a.mId ≤ s.seq)
    (hargsptr : ∀ a ∈ args, a.mPyObj < s.heap.next)
    (hclosed : ∀ e ∈ s.heap.mem, ∀ q ∈ e.2.items, q = 0 ∨ q < s.heap.next)
    (hseq : s.seq + 2 < 2 ^ 64)
    (hnext : 0 < s.heap.next) :
    (∃ t s1 s2, Python.object scope objectName s = (.ok t, s1) ∧
      s1.sObjects.isRegistered t = true ∧
      Python.forgetArgument t s1 = (.ok (), s2) ∧ s2.sObjects.isRegistered t = false) ∧
    (∃ t s1 s2, Python.fromAscii str s = (.ok t, s1) ∧
      s1.sObjects.isRegistered t = true ∧
      Python.forgetArgument t s1 = (.ok (), s2) ∧ s2.sObjects.isRegistered t = false) ∧
    (∃ t s1 s2, Python.tuple args keep s = (.ok t, s1) ∧
      s1.sObjects.isRegistered t = true ∧
      Python.forgetArgument t s1 = (.ok (), s2) ∧ s2.sObjects.isRegistered t = false) ∧
    (∃ t s1 s2, Python.list args keep s = (.ok t, s1) ∧
      s1.sObjects.isRegistered t = true ∧
      Python.forgetArgument t s1 = (.ok (), s2) ∧ s2.sObjects.isRegistered t = false) ∧
    (∃ t s1 s2, Python.call scope args keep s = (.ok t, s1) ∧
      s1.sObjects.isRegistered t = true ∧
      Python.forgetArgument t s1 = (.ok (), s2) ∧ s2.sObjects.isRegistered t = false) := by
  have hseq1 : s.seq + 1 < 2 ^ 64 := by omega
  have hseqlit : s.seq + 1 < 18446744073709551616 := lt_of_lt_of_le hseq1 (by norm_num)
  have hmod : (s.seq + 1) % 18446744073709551616 = s.seq + 1 := Nat.mod_eq_of_lt hseqlit
  have hseqlit2 : s.seq + 1 + 1 < 18446744073709551616 := by
    have : s.seq + 2 < 18446744073709551616 := lt_of_lt_of_le hseq (by norm_num)
    omega
  have hmod2 : (s.seq + 1 + 1) % 18446744073709551616 = s.seq + 1 + 1 :=
    Nat.mod_eq_of_lt hseqlit2
  have hp0 : ¬ s.heap.next = 0 := Nat.pos_iff_ne_zero.1 hnext
  have hfreshNew : ∀ x ∈ s.sObjects.mObjects, x.mId ≠ s.seq + 1 := by
    intro x hx
    have := hids x hx
    omega
  have hro := s.sObjects.registerObject_fresh ⟨s.heap.next, s.seq + 1⟩ hfreshNew
  refine ⟨?_, ?_, ?_, ?_, ?_⟩
  · -- object
    have hobj : Python.object scope objectName s =
        (.ok ⟨s.heap.next, s.seq + 1⟩,
         { s with heap := ⟨(s.heap.next, ⟨1, [], .otherK⟩) :: s.heap.mem, s.heap.next + 1⟩,
                  seq := s.seq + 1,
                  sObjects := ⟨(⟨s.heap.next, s.seq + 1⟩ : ObjectHandler) :: s.sObjects.mObjects⟩ }) := by
      simp only [Python.object, Heap.alloc, hInit, Bool.not_true, if_false, ite_false,
        ite_true, ObjectHandler.fromPtr, ObjectHandler.nextId]
      norm_num [hmod, hro, hp0]
    have hregt : (⟨(⟨s.heap.next, s.seq + 1⟩ : ObjectHandler) :: s.sObjects.mObjects⟩ :
        ObjectHandlersCollection).isRegistered ⟨s.heap.next, s.seq + 1⟩ = true := by
      simp [ObjectHandlersCollection.isRegistered]
    have hrc : (⟨(s.heap.next, (⟨1, [], .otherK⟩ : PyObj)) :: s.heap.mem,
        s.heap.next + 1⟩ : Heap).refcnt s.heap.next = (1 : Int) :=
      Heap.refcnt_eq_of_find? _ _ _ (Heap.find?_cons_self _ _ _ _)
    have hforg := forgetArgument_ok
      { s with heap := ⟨(s.heap.next, ⟨1, [], .otherK⟩) :: s.heap.mem, s.heap.next + 1⟩,
               seq := s.seq + 1,
               sObjects := ⟨(⟨s.heap.next, s.seq + 1⟩ : ObjectHandler) :: s.sObjects.mObjects⟩ }
      ⟨s.heap.next, s.seq + 1⟩ hInit hregt (le_of_eq hrc.symm)
    exact ⟨_, _, _, hobj, hregt, hforg,
      ObjectHandlersCollection.isRegistered_erase_self _ _⟩
  · -- fromAscii
    have hfrom : Python.fromAscii str s =
        (.ok ⟨s.heap.next, s.seq + 1⟩,
         { s with heap := ⟨(s.heap.next, ⟨1, [], .strK str⟩) :: s.heap.mem, s.heap.next + 1⟩,
                  seq := s.seq + 1,
                  sObjects := ⟨(⟨s.heap.next, s.seq + 1⟩ : ObjectHandler) :: s.sObjects.mObjects⟩ }) := by
      simp only [Python.fromAscii, Heap.alloc, hInit, Bool.not_true, if_false, ite_false,
        ite_true, ObjectHandler.fromPtr, ObjectHandler.nextId]
      norm_num [hmod, hro]
    have hregt : (⟨(⟨s.heap.next, s.seq + 1⟩ : ObjectHandler) :: s.sObjects.mObjects⟩ :
        ObjectHandlersCollection).isRegistered ⟨s.heap.next, s.seq + 1⟩ = true := by
      simp [ObjectHandlersCollection.isRegistered]
    have hrc : (⟨(s.heap.next, (⟨1, [], .strK str⟩ : PyObj)) :: s.heap.mem,
        s.heap.next + 1⟩ : Heap).refcnt s.heap.next = (1 : Int) :=
      Heap.refcnt_eq_of_find? _ _ _ (Heap.find?_cons_self _ _ _ _)
    have hforg := forgetArgument_ok
      { s with heap := ⟨(s.heap.next, ⟨1, [], .strK str⟩) :: s.heap.mem, s.heap.next + 1⟩,
               seq := s.seq + 1,
               sObjects := ⟨(⟨s.heap.next, s.seq + 1⟩ : ObjectHandler) :: s.sObjects.mObjects⟩ }
      ⟨s.heap.next, s.seq + 1⟩ hInit hregt (le_of_eq hrc.symm)
    exact ⟨_, _, _, hfrom, hregt, hforg,
      ObjectHandlersCollection.isRegistered_erase_self _ _⟩
  · -- tuple
    obtain ⟨t, s1, s2, h1, h2, h3, h4, _⟩ := containerNew_registers PyKind.tupleK
      "Python::tuple(): failure in creating tuple" s args keep hInit hids hargsid
      hargsptr hseq1 hnext
    exact ⟨t, s1, s2, h1, h2, h3, h4⟩
  · -- list
    obtain ⟨t, s1, s2, h1, h2, h3, h4, _⟩ := containerNew_registers PyKind.listK
      "Python::list(): failure in creating list" s args keep hInit hids hargsid
      hargsptr hseq1 hnext
    exact ⟨t, s1, s2, h1, h2, h3, h4⟩
  · -- call
    cases args with
    | nil =>
      have hcall : Python.call scope [] keep s =
          (.ok ⟨s.heap.next, s.seq + 1⟩,
           { s with heap := ⟨(s.heap.next, ⟨1, [], .otherK⟩) :: s.heap.mem, s.heap.next + 1⟩,
                    seq := s.seq + 1,
                    sObjects := ⟨(⟨s.heap.next, s.seq + 1⟩ : ObjectHandler) :: s.sObjects.mObjects⟩ }) := by
        simp only [Python.call, Heap.alloc, hInit, Bool.not_true, if_false, ite_false,
          ite_true, List.length_nil, ne_eq, not_true_eq_false, not_false_eq_true,
          ObjectHandler.fromPtr, ObjectHandler.nextId]
        norm_num [hmod, hro, hp0]
      have hregt : (⟨(⟨s.heap.next, s.seq + 1⟩ : ObjectHandler) :: s.sObjects.mObjects⟩ :
          ObjectHandlersCollection).isRegistered ⟨s.heap.next, s.seq + 1⟩ = true := by
        simp [ObjectHandlersCollection.isRegistered]
      have hrc : (⟨(s.heap.next, (⟨1, [], .otherK⟩ : PyObj)) :: s.heap.mem,
          s.heap.next + 1⟩ : Heap).refcnt s.heap.next = (1 : Int) :=
        Heap.refcnt_eq_of_find? _ _ _ (Heap.find?_cons_self _ _ _ _)
      have hforg := forgetArgument_ok
        { s with heap := ⟨(s.heap.next, ⟨1, [], .otherK⟩) :: s.heap.mem, s.heap.next + 1⟩,
                 seq := s.seq + 1,
                 sObjects := ⟨(⟨s.heap.next, s.seq + 1⟩ : ObjectHandler) :: s.sObjects.mObjects⟩ }
        ⟨s.heap.next, s.seq + 1⟩ hInit hregt (le_of_eq hrc.symm)
      exact ⟨_, _, _, hcall, hregt, hforg,
        ObjectHandlersCollection.isRegistered_erase_self _ _⟩
    | cons a0 tl =>
      obtain ⟨t, s1, s2x, htup, hregt1, _, _, hn1, hsub1, hnia1, hrc1, hseq1', hteq, hInit1⟩ :=
        containerNew_registers PyKind.tupleK
          "Python::tuple(): failure in creating tuple" s (a0 :: tl) keep hInit hids
          hargsid hargsptr hseq1 hnext
      subst hteq
      have hPne : ¬ s.heap.next = s1.heap.next := by
        rw [hn1]
        exact ne_of_lt (Nat.lt_succ_self _)
      have hP0 : ¬ s1.heap.next = 0 := by
        rw [hn1]
        exact Nat.succ_ne_zero _
      -- the freshly allocated call result does not collide with anything
      have hniS1 : Heap.NotAnItem s1.heap s1.heap.next := by
        refine hnia1 s1.heap.next (fun hh => hPne hh.symm) ?_ ?_
        · intro e he
          rcases List.mem_cons.1 he with he | he
          · rw [he]
            intro hm
            have h0 := List.eq_of_mem_replicate hm
            rw [hn1] at h0
            exact Nat.succ_ne_zero _ h0
          · intro hm
            rcases hclosed e he _ hm with h0 | hlt
            · rw [hn1] at h0
              exact Nat.succ_ne_zero _ h0
            · rw [hn1] at hlt
              exact absurd (lt_trans (Nat.lt_succ_self _) hlt) (lt_irrefl _)
        · intro a ha
          rw [hn1]
          exact ne_of_lt (lt_trans (hargsptr a ha) (Nat.lt_succ_self _))
      have hregt2 : ({ s1 with heap := (⟨(s1.heap.next, ⟨1, [], .otherK⟩) :: s1.heap.mem,
          s1.heap.next + 1⟩ : Heap) } : PyState).sObjects.isRegistered
          ⟨s.heap.next, s.seq + 1⟩ = true := hregt1
      have hrcA : (⟨(s1.heap.next, (⟨1, [], .otherK⟩ : PyObj)) :: s1.heap.mem,
          s1.heap.next + 1⟩ : Heap).refcnt s.heap.next = (1 : Int) := by
        rw [Heap.refcnt_congr _ s1.heap _ (Heap.find?_cons_ne _ _ _ _ _ _ hPne), hrc1]
      have hforg2 := forgetArgument_ok
        { s1 with heap := ⟨(s1.heap.next, ⟨1, [], .otherK⟩) :: s1.heap.mem, s1.heap.next + 1⟩ }
        ⟨s.heap.next, s.seq + 1⟩ hInit1 hregt2 (le_of_eq hrcA.symm)
      have hfresh2 : ∀ x ∈ (s1.sObjects.erase ⟨s.heap.next, s.seq + 1⟩).mObjects,
          x.mId ≠ s.seq + 1 + 1 := by
        intro x hx
        have hx1 : x ∈ s1.sObjects.mObjects := List.mem_of_mem_filter hx
        rcases List.mem_cons.1 (hsub1 x hx1) with hx2 | hx2
        · rw [hx2]
          show s.seq + 1 ≠ s.seq + 1 + 1
          omega
        · have := hids x hx2
          omega
      have hro2 := (s1.sObjects.erase ⟨s.heap.next, s.seq + 1⟩).registerObject_fresh
        ⟨s1.heap.next, s.seq + 1 + 1⟩ hfresh2
      have hcall : Python.call scope (a0 :: tl) keep s =
          (.ok ⟨s1.heap.next, s.seq + 1 + 1⟩,
           { s1 with
              heap := (⟨(s1.heap.next, ⟨1, [], .otherK⟩) :: s1.heap.mem, s1.heap.next + 1⟩ : Heap).decRef s.heap.next,
              seq := s.seq + 1 + 1,
              sObjects := ⟨(⟨s1.heap.next, s.seq + 1 + 1⟩ : ObjectHandler) :: (s1.sObjects.erase ⟨s.heap.next, s.seq + 1⟩).mObjects⟩ }) := by
        simp only [Python.call, hInit, Bool.not_true, if_false, ite_false, ite_true,
          List.length_cons, ne_eq, Nat.succ_ne_zero, not_false_eq_true]
        rw [show Python.tuple (a0 :: tl) keep s =
          (.ok ⟨s.heap.next, s.seq + 1⟩, s1) from htup]
        simp only [Heap.alloc]
        rw [hforg2]
        simp only [hP0, if_false, ite_false, ite_true, ObjectHandler.fromPtr,
          ObjectHandler.nextId, hseq1']
        norm_num [hmod2, hro2, hP0]
      have hregt3 : (⟨(⟨s1.heap.next, s.seq + 1 + 1⟩ : ObjectHandler) ::
          (s1.sObjects.erase ⟨s.heap.next, s.seq + 1⟩).mObjects⟩ :
          ObjectHandlersCollection).isRegistered ⟨s1.heap.next, s.seq + 1 + 1⟩ = true := by
        simp [ObjectHandlersCollection.isRegistered]
      have hniA3 : Heap.NotAnItem (⟨(s1.heap.next, (⟨1, [], .otherK⟩ : PyObj)) :: s1.heap.mem,
          s1.heap.next + 1⟩ : Heap) s1.heap.next := by
        intro e he
        rcases List.mem_cons.1 he with he | he
        · rw [he]
          simp
        · exact hniS1 e he
      have hrcRet : ((⟨(s1.heap.next, (⟨1, [], .otherK⟩ : PyObj)) :: s1.heap.mem,
          s1.heap.next + 1⟩ : Heap).decRef s.heap.next).refcnt s1.heap.next = (1 : Int) := by
        rw [Heap.refcnt_congr _ _ _ (Heap.decRef_find?_preserve _ _ _ hPne hniA3)]
        exact Heap.refcnt_eq_of_find? _ _ _ (Heap.find?_cons_self _ _ _ _)
      have hforg3 := forgetArgument_ok
        { s1 with
            heap := (⟨(s1.heap.next, ⟨1, [], .otherK⟩) :: s1.heap.mem, s1.heap.next + 1⟩ : Heap).decRef s.heap.next,
            seq := s.seq + 1 + 1,
            sObjects := ⟨(⟨s1.heap.next, s.seq + 1 + 1⟩ : ObjectHandler) :: (s1.sObjects.erase ⟨s.heap.next, s.seq + 1⟩).mObjects⟩ }
        ⟨s1.heap.next, s.seq + 1 + 1⟩ hInit1 hregt3 (le_of_eq hrcRet.symm)
      exact ⟨_, _, _, hcall, hregt3, hforg3,
        ObjectHandlersCollection.isRegistered_erase_self _ _⟩

/-- C1 witness: in `samplePair`, `object`, `fromAscii` and `call` (with the
registered argument handle `⟨1, 1⟩`) each return a handle that is registered
and that a subsequent `forgetArgument` unregisters. -/
theorem producing_ops_register_witness :
    (∃ t s1 s2, Python.object 9 "attr" samplePair = (.ok t, s1) ∧
      s1.sObjects.isRegistered t = true ∧
      Python.forgetArgument t s1 = (.ok (), s2) ∧ s2.sObjects.isRegistered t = false) ∧
    (∃ t s1 s2, Python.fromAscii "txt" samplePair = (.ok t, s1) ∧
      s1.sObjects.isRegistered t = true ∧
      Python.forgetArgument t s1 = (.ok (), s2) ∧ s2.sObjects.isRegistered t = false) ∧
    (∃ t s1 s2, Python.call 9 [⟨1, 1⟩] false samplePair = (.ok t, s1) ∧
      s1.sObjects.isRegistered t = true ∧
      Python.forgetArgument t s1 = (.ok (), s2) ∧ s2.sObjects.isRegistered t = false) := by
  have h := producing_ops_register samplePair 9 "attr" "txt" [⟨1, 1⟩] false (by decide)
    (by decide) (by decide) (by decide) (by decide) (by decide) (by decide)
  exact ⟨h.1, h.2.1, h.2.2.2.2⟩

/-- The release loop of `Python::shutdown` succeeds on a duplicate-free list
of live scalar pointers (count at least 1, no items) and leaves every other
heap entry untouched. -/
theorem decRefAll_ok : ∀ (l : List Ptr) (h : Heap),
    (∀ p ∈ l, ∃ o : PyObj, h.find? p = some o ∧ 1 ≤ o.refcnt ∧ o.items = []) →
    l.Nodup →
    ∃ h', Python.decRefAll l h = (.ok h', h') ∧
      ∀ q, q ∉ l → h'.find? q = h.find? q := by
  intro l
  induction l with
  | nil =>
    intro h _ _
    exact ⟨h, rfl, fun q _ => rfl⟩
  | cons p tl ih =>
    intro h hpre hnd
    obtain ⟨o, ho, hro, hsc⟩ := hpre p (List.mem_cons_self p tl)
    have hnlt : ¬ h.refcnt p < 1 := by
      rw [Heap.refcnt_eq_of_find? h p o ho]
      omega
    have hcheck : Python.decRefChecked h p = .ok (h.decRef p) := by
      simp [Python.decRefChecked, hnlt]
    have hpres := (Heap.decRefCore_scalar_step h.mem.length h p o ho hsc).2
    have hstep : h.decRef p = Heap.decRefCore (h.mem.length + 1) p h := rfl
    have hnd' := List.nodup_cons.1 hnd
    have hpre' : ∀ r ∈ tl, ∃ o' : PyObj,
        (h.decRef p).find? r = some o' ∧ 1 ≤ o'.refcnt ∧ o'.items = [] := by
      intro r hr
      obtain ⟨o', ho', hro', hsc'⟩ := hpre r (List.mem_cons_of_mem p hr)
      have hrp : ¬ r = p := fun he => hnd'.1 (he ▸ hr)
      refine ⟨o', ?_, hro', hsc'⟩
      rw [hstep, hpres r hrp]
      exact ho'
    obtain ⟨h', hrun, hkeep⟩ := ih (h.decRef p) hpre' hnd'.2
    refine ⟨h', ?_, ?_⟩
    · simp only [Python.decRefAll, hcheck, hrun]
    · intro q hq
      have hq1 : ¬ q = p := fun he => hq (he ▸ List.mem_cons_self p tl)
      have hq2 : q ∉ tl := fun hm => hq (List.mem_cons_of_mem p hm)
      rw [hkeep q hq2, hstep, hpres q hq1]

/-- `Python::import` on an initialized state whose module cache misses: a
fresh foreign string (the decoded name) and a fresh foreign module are
allocated, the string is released and the module cached. -/
theorem importModule_fresh (s : PyState) (name : String)
    (hInit : Python.isInitialized s = true)
    (hnone : s.modules.find? (fun e => e.1 = name) = none) :
    Python.importModule name s =
      (.ok (s.heap.next + 1),
       { s with
           heap := (⟨(s.heap.next + 1, ⟨1, [], .moduleK⟩) ::
                      (s.heap.next, ⟨1, [], .strK name⟩) :: s.heap.mem,
                     s.heap.next + 1 + 1⟩ : Heap).decRef s.heap.next,
           modules := (name, s.heap.next + 1) :: s.modules }) := by
  have hfind : (⟨(s.heap.next + 1, ⟨1, [], .moduleK⟩) ::
      (s.heap.next, ⟨1, [], .strK name⟩) :: s.heap.mem,
      s.heap.next + 1 + 1⟩ : Heap).find? s.heap.next = some ⟨1, [], .strK name⟩ := by
    rw [Heap.find?_cons_ne _ _ _ _ _ (s.heap.next + 1 + 1)
      (Ne.symm (Nat.succ_ne_self s.heap.next)), Heap.find?_cons_self]
  have hnlt : ¬ (⟨(s.heap.next + 1, ⟨1, [], .moduleK⟩) ::
      (s.heap.next, ⟨1, [], .strK name⟩) :: s.heap.mem,
      s.heap.next + 1 + 1⟩ : Heap).refcnt s.heap.next < 1 := by
    rw [Heap.refcnt_eq_of_find? _ _ _ hfind]
    norm_num
  have hz : ¬ s.heap.next + 1 = 0 := Nat.succ_ne_zero _
  simp [Python.importModule, hInit, hnone, Heap.alloc, Python.decRefChecked, hnlt, hz]

/-- C5: the interpreter lifecycle is a two-state machine. `init` moves an
uninitialized state to an initialized one; a second `init` without an
intervening `shutdown` raises no error, leaves `isInitialized()` true, does
not re-initialize (heap, modules, callables, registry and id sequence are
untouched) and only appends the given search-path entries; `shutdown` moves
an initialized state (whose cached callables, registered objects and cached
modules are live duplicate-free scalars) back to the uninitialized state; a
`shutdown` while already uninitialized is a no-op that never raises; and
every facade operation other than `isInitialized` and `init` raises the
not-initialized error, mutating nothing, when invoked uninitialized. -/
theorem lifecycle_state_machine (s t : PyState) (programName a0 : String)
    (pathList pathList2 : List String) (code mname cname str : String)
    (scope cptr : Ptr) (fr keep : Bool) (args : List ObjectHandler)
    (oh oh2 : ObjectHandler)
    (hUninit : s.argv0 = none) (hMods : s.modules = [])
    (hInitT : t.argv0 = some a0)
    (hLive : ∀ p ∈ ((t.callables.map (fun e => e.2.2) ++
        t.sObjects.mObjects.map (fun o => o.mPyObj)) ++
        t.modules.map (fun e => e.2)),
      ∃ o : PyObj, t.heap.find? p = some o ∧ 1 ≤ o.refcnt ∧ o.items = [])
    (hNd : ((t.callables.map (fun e => e.2.2) ++
        t.sObjects.mObjects.map (fun o => o.mPyObj)) ++
        t.modules.map (fun e => e.2)).Nodup) :
    (∃ s', Python.init programName pathList s = (.ok (), s') ∧
       Python.isInitialized s' = true) ∧
    (Python.init programName pathList2 t =
        (.ok (), Python.initPathEntries pathList2 t) ∧
     Python.isInitialized (Python.initPathEntries pathList2 t) = true ∧
     (Python.initPathEntries pathList2 t).heap = t.heap ∧
     (Python.initPathEntries pathList2 t).argv0 = t.argv0 ∧
     (Python.initPathEntries pathList2 t).modules = t.modules ∧
     (Python.initPathEntries pathList2 t).callables = t.callables ∧
     (Python.initPathEntries pathList2 t).sObjects = t.sObjects ∧
     (Python.initPathEntries pathList2 t).seq = t.seq) ∧
    (Python.shutdown t = (.ok (), ⟨⟨[], 1⟩, none, [], [], [], ⟨[]⟩, t.seq⟩) ∧
     Python.isInitialized (Python.shutdown t).2 = false) ∧
    Python.shutdown s = (.ok (), s) ∧
    (Python.execute code s = (.error Python.notInitializedErr, s) ∧
     Python.importModule mname s = (.error Python.notInitializedErr, s) ∧
     Python.moduleOf mname s = (.error Python.notInitializedErr, s) ∧
     Python.callableOf scope cname fr s = (.error Python.notInitializedErr, s) ∧
     Python.object scope cname s = (.error Python.notInitializedErr, s) ∧
     Python.call cptr args keep s = (.error Python.notInitializedErr, s) ∧
     Python.tuple args keep s = (.error Python.notInitializedErr, s) ∧
     Python.list args keep s = (.error Python.notInitializedErr, s) ∧
     Python.addList oh oh2 keep s = (.error Python.notInitializedErr, s) ∧
     Python.fromAscii str s = (.error Python.notInitializedErr, s) ∧
     Python.toAscii oh keep s = (.error Python.notInitializedErr, s) ∧
     Python.keepArgument oh s = (.error Python.notInitializedErr, s) ∧
     Python.controlArgument oh s = (.error Python.notInitializedErr, s) ∧
     Python.forgetArgument oh s = (.error Python.notInitializedErr, s)) := by
  have hsInit : Python.isInitialized s = false := by
    simp [Python.isInitialized, hUninit]
  -- Part 1: first `init` from the uninitialized state.
  have h1 := importModule_fresh { s with argv0 := some programName, sysPath := ["."] }
    Python.moduleMain (by rfl) (by simp [hMods])
  obtain ⟨s1, hs1run, hs1argv, hs1mods⟩ :
      ∃ s1, Python.importModule Python.moduleMain
          { s with argv0 := some programName, sysPath := ["."] } =
          (.ok (s.heap.next + 1), s1) ∧
        s1.argv0 = some programName ∧
        s1.modules = [(Python.moduleMain, s.heap.next + 1)] := by
    refine ⟨_, h1, rfl, ?_⟩
    simp [hMods]
  have hs1init : Python.isInitialized s1 = true := by
    simp [Python.isInitialized, hs1argv]
  have hs1none : s1.modules.find? (fun e => e.1 = Python.moduleBuiltins) = none := by
    simp [hs1mods, Python.moduleMain, Python.moduleBuiltins, List.find?]
  have h2 := importModule_fresh s1 Python.moduleBuiltins hs1init hs1none
  obtain ⟨s2, hs2run, hs2argv⟩ :
      ∃ s2, Python.importModule Python.moduleBuiltins s1 =
          (.ok (s1.heap.next + 1), s2) ∧ s2.argv0 = some programName := by
    refine ⟨_, h2, ?_⟩
    exact hs1argv
  have hpart1 : ∃ s', Python.init programName pathList s = (.ok (), s') ∧
      Python.isInitialized s' = true := by
    refine ⟨Python.initPathEntries pathList s2, ?_, ?_⟩
    · simp [Python.init, hUninit, hs1run, hs2run]
    · simp [Python.isInitialized, Python.initPathEntries, hs2argv]
  -- Part 3: `shutdown` from an initialized state with live scalar caches.
  obtain ⟨hnd12, hnd3, hdisj123⟩ := List.nodup_append.1 hNd
  obtain ⟨hnd1, hnd2, hdisj12⟩ := List.nodup_append.1 hnd12
  obtain ⟨h1', hrun1, hkeep1⟩ := decRefAll_ok (t.callables.map (fun e => e.2.2)) t.heap
    (fun p hp => hLive p (List.mem_append_left _ (List.mem_append_left _ hp))) hnd1
  obtain ⟨h2', hrun2, hkeep2⟩ := decRefAll_ok
    (t.sObjects.mObjects.map (fun o => o.mPyObj)) h1'
    (fun p hp => by
      obtain ⟨o, ho, hro, hsc⟩ :=
        hLive p (List.mem_append_left _ (List.mem_append_right _ hp))
      refine ⟨o, ?_, hro, hsc⟩
      rw [hkeep1 p (fun hp1 => hdisj12 hp1 hp)]
      exact ho) hnd2
  obtain ⟨h3', hrun3, _⟩ := decRefAll_ok (t.modules.map (fun e => e.2)) h2'
    (fun p hp => by
      obtain ⟨o, ho, hro, hsc⟩ := hLive p (List.mem_append_right _ hp)
      have hp12 : p ∉ t.callables.map (fun e => e.2.2) ++
          t.sObjects.mObjects.map (fun o => o.mPyObj) :=
        fun hmem => hdisj123 hmem hp
      refine ⟨o, ?_, hro, hsc⟩
      rw [hkeep2 p (fun hm => hp12 (List.mem_append_right _ hm)),
        hkeep1 p (fun hm => hp12 (List.mem_append_left _ hm))]
      exact ho) hnd3
  have hpart3 : Python.shutdown t = (.ok (), ⟨⟨[], 1⟩, none, [], [], [], ⟨[]⟩, t.seq⟩) := by
    simp only [Python.shutdown, hInitT, hrun1, hrun2, hrun3]
  refine ⟨hpart1,
    ⟨by simp [Python.init, hInitT], by simp [Python.isInitialized, Python.initPathEntries, hInitT],
     rfl, rfl, rfl, rfl, rfl, rfl⟩,
    ⟨hpart3, by rw [hpart3]; rfl⟩,
    by simp [Python.shutdown, hUninit],
    by simp [Python.execute, hsInit],
    by simp [Python.importModule, hsInit],
    by simp [Python.moduleOf, hsInit],
    by simp [Python.callableOf, hsInit],
    by simp [Python.object, hsInit],
    by simp [Python.call, hsInit],
    by simp [Python.tuple, Python.containerNew, hsInit],
    by simp [Python.list, Python.containerNew, hsInit],
    by simp [Python.addList, hsInit],
    by simp [Python.fromAscii, hsInit],
    by simp [Python.toAscii, hsInit],
    by simp [Python.keepArgument, hsInit],
    by simp [Python.controlArgument, hsInit],
    by simp [Python.forgetArgument, hsInit]⟩

/-- C5 witness: from the uninitialized `sampleUninit`, `init` succeeds and
reaches the initialized state while `shutdown` and `forgetArgument` behave as
claimed (no-op resp. raising); from the initialized `sampleInit`, a second
`init` only appends to the search path and `shutdown` returns to the
uninitialized state. -/
theorem lifecycle_state_machine_witness :
    (∃ s', Python.init "prog" ["lib"] sampleUninit = (.ok (), s') ∧
       Python.isInitialized s' = true) ∧
    Python.init "prog" ["lib2"] sampleInit =
      (.ok (), Python.initPathEntries ["lib2"] sampleInit) ∧
    Python.shutdown sampleInit =
      (.ok (), ⟨⟨[], 1⟩, none, [], [], [], ⟨[]⟩, sampleInit.seq⟩) ∧
    Python.shutdown sampleUninit = (.ok (), sampleUninit) ∧
    Python.forgetArgument ⟨1, 1⟩ sampleUninit =
      (.error Python.notInitializedErr, sampleUninit) := by
  have h := lifecycle_state_machine sampleUninit sampleInit "prog" "prog" ["lib"] ["lib2"]
    "x = 1" "m" "f" "txt" 7 7 false false [] ⟨1, 1⟩ ⟨2, 2⟩
    rfl rfl rfl
    (by
      intro p hp
      simp [sampleInit] at hp
      subst hp
      exact ⟨⟨2, [], .otherK⟩, rfl, by norm_num, rfl⟩)
    (by decide)
  obtain ⟨hp1, hp2, hp3, hp4, hp5⟩ := h
  exact ⟨hp1, hp2.1, hp3.1, hp4, hp5.2.2.2.2.2.2.2.2.2.2.2.2.2⟩

end Shlublu
